import Mathlib

/-!
Verification development for the DeyeMonitor energy-management controller.

The definitions below are a shallow embedding of the Python sources:

* `src/src/ems_logic.py`   — `LogicResult`, `EMSParameters`, `LogicState`,
  `EMSLogic.process` (the cascade decision engine);
* `src/src/ui_components.py` + `src/main.py` — the time-schedule resolver;
* `src/main.py`            — `_process_overpower_protection`;
* `src/src/tapo_manager.py` — the per-outlet connection cycle of
  `TapoManager._main_task` and `TapoManager.toggle`;
* `src/src/deye_inverter.py` — exception handling of `read_data`,
  `read_battery_settings`, `read_max_sell_power`, `_write_register`.

Modelling conventions:

* Wall-clock time (`time.time()`) is passed explicitly as a rational `now`.
* Python floats are idealised as rationals (only order comparisons and
  additions occur, so the idealisation is exact up to float rounding).
* Side effects on the outlet manager (`tapo.turn_on` / `tapo.turn_off` /
  `set_max_charge_current`) are collected in an explicit command trace.
* Display strings are not reproduced; where a result's detail message names
  an outlet, the embedding records that outlet's id in the `named` field.
* Configuration values that the spec (§6) declares to be supplied by an
  external configuration collaborator (e.g. `max_charge_amps_limit`) are
  taken as explicit parameters.
-/

namespace DeyeMonitor

/-- `LogicResult` from `ems_logic.py` (the enum's string payloads are
display-only and omitted). -/
inductive LogicResult where
  | SAFETY_OVERLOAD
  | SAFETY_UPS_OVERLOAD
  | SAFETY_UNDERVOLTAGE
  | MANUAL_MODE
  | ERROR_SOC_CONFIG
  | ERROR_VOLTAGE_CONFIG
  | ERROR_CRITICAL_CONFIG
  | OFF_UNDERVOLTAGE
  | OFF_BATTERY_LOW
  | RUNNING_OK
  | ON_HV_DUMP
  | ON_EXPORT_DUMP
  | ON_AUTO_START
  | WAIT_HEADROOM
  | WAIT_LOW_VOLTAGE
  | WAIT_LV_RECOVERY
  | WAIT_CHARGING
  | TAPO_OFFLINE
  deriving DecidableEq, Repr

/-- A side effect requested on the outlet manager (`tapo.turn_on(id)` /
`tapo.turn_off(id)`). -/
inductive Cmd where
  | turnOn (oid : Nat)
  | turnOff (oid : Nat)
  deriving DecidableEq, Repr

/-- `InverterData` from `deye_inverter.py` (the fields `process` reads). -/
structure InverterData where
  soc : Int
  battery_power : Int
  pv_power : Int
  grid_power : Int
  voltages : List ℚ
  ups_loads : List Int
  grid_loads : List Int
  total_loads : List Int
  running_state : Nat
  is_grid_connected : Bool

/-- `EMSParameters` from `ems_logic.py`. -/
structure EMSParameters where
  phase_max : Int
  safety_lv : ℚ
  manual_mode : Bool
  max_ups_total_power : Int

/-- `OutletConfig` from `config.py` (identity/auth strings other than the
name are irrelevant to the engine and omitted). -/
structure OutletConfig where
  outlet_id : Nat
  name : String
  priority : Int
  power : Int
  start_soc : Int
  stop_soc : Int
  hv_threshold : ℚ
  lv_threshold : ℚ
  lv_delay : ℚ
  lv_recovery_voltage : ℚ
  lv_recovery_delay : ℚ
  headroom : Int
  target_phase : String
  soc_enabled : Bool
  voltage_enabled : Bool
  export_enabled : Bool
  export_limit : Int
  runtime_delay : ℚ
  deriving DecidableEq

/-- The slice of `OutletDevice` (from `tapo_manager.py`) that
`EMSLogic.process` reads. -/
structure OutletDevice where
  config : OutletConfig
  current_state : Bool
  is_connected : Bool
  deriving DecidableEq

/-- `LogicState` from `ems_logic.py`.  The Python id-keyed dicts (with
lookups defaulting to `None` / `False` for missing keys) are total maps. -/
structure LogicState where
  lv_timers : Nat → Option ℚ
  runtime_start : Nat → Option ℚ
  lv_shutdown : Nat → Bool
  lv_recovery_timers : Nat → Option ℚ

/-- Point update of a total map. -/
def updFn {α : Type} (f : Nat → α) (k : Nat) (v : α) : Nat → α :=
  fun i => if i = k then v else f i

def LogicState.reset_lv_timer (s : LogicState) (oid : Nat) : LogicState :=
  { s with lv_timers := updFn s.lv_timers oid none }

def LogicState.start_lv_timer (s : LogicState) (oid : Nat) (now : ℚ) : LogicState :=
  match s.lv_timers oid with
  | none => { s with lv_timers := updFn s.lv_timers oid (some now) }
  | some _ => s

def LogicState.lv_timer_elapsed (s : LogicState) (oid : Nat) (delay now : ℚ) : Bool :=
  match s.lv_timers oid with
  | none => false
  | some t => decide (now - t ≥ delay)

def LogicState.start_runtime (s : LogicState) (oid : Nat) (now : ℚ) : LogicState :=
  match s.runtime_start oid with
  | none => { s with runtime_start := updFn s.runtime_start oid (some now) }
  | some _ => s

def LogicState.reset_runtime (s : LogicState) (oid : Nat) : LogicState :=
  { s with runtime_start := updFn s.runtime_start oid none }

def LogicState.get_runtime (s : LogicState) (oid : Nat) (now : ℚ) : ℚ :=
  match s.runtime_start oid with
  | none => 0
  | some t => now - t

def LogicState.mark_lv_shutdown (s : LogicState) (oid : Nat) : LogicState :=
  { s with lv_shutdown := updFn s.lv_shutdown oid true,
           lv_recovery_timers := updFn s.lv_recovery_timers oid none }

def LogicState.start_lv_recovery (s : LogicState) (oid : Nat) (now : ℚ) : LogicState :=
  match s.lv_recovery_timers oid with
  | none => { s with lv_recovery_timers := updFn s.lv_recovery_timers oid (some now) }
  | some _ => s

def LogicState.reset_lv_recovery (s : LogicState) (oid : Nat) : LogicState :=
  { s with lv_recovery_timers := updFn s.lv_recovery_timers oid none }

def LogicState.lv_recovery_elapsed (s : LogicState) (oid : Nat) (delay now : ℚ) : Bool :=
  match s.lv_recovery_timers oid with
  | none => false
  | some t => decide (now - t ≥ delay)

def LogicState.clear_lv_shutdown (s : LogicState) (oid : Nat) : LogicState :=
  { s with lv_shutdown := updFn s.lv_shutdown oid false,
           lv_recovery_timers := updFn s.lv_recovery_timers oid none }

def LogicState.is_lv_shutdown (s : LogicState) (oid : Nat) : Bool :=
  s.lv_shutdown oid

/-- `EMSLogic.PHASE_MAP.get(phase, 0)`. -/
def phaseIdx (p : String) : Nat :=
  if p = "L1" then 0 else if p = "L2" then 1 else if p = "L3" then 2 else 0

/-- Outcome of one `process` call: the returned `LogicResult`, the outlet
(if any) named by the detail message, the trace of `turn_on`/`turn_off`
requests issued, and the engine state after the call. -/
structure ProcOut where
  result : LogicResult
  named : Option Nat
  cmds : List Cmd
  state : LogicState

/-- Early-return-or-continue outcome of one pass of the cascade loops. -/
inductive PassOut where
  | ret (result : LogicResult) (named : Option Nat) (cmds : List Cmd) (st : LogicState)
  | cont (st : LogicState)

/-- Step 1 of `process`: the hard-safety loop over connected outlets
(`ems_logic.py` lines 166-183).  Returns the result and the outlet that is
commanded off, if any check fires. -/
def safetyCheck (d : InverterData) (p : EMSParameters) :
    List OutletDevice → Option (LogicResult × Nat)
  | [] => none
  | o :: rest =>
    if o.current_state then
      if d.ups_loads.sum > p.max_ups_total_power then
        some (.SAFETY_UPS_OVERLOAD, o.config.outlet_id)
      else if d.ups_loads.any (fun w => decide (w > p.phase_max)) then
        some (.SAFETY_OVERLOAD, o.config.outlet_id)
      else if d.voltages.any (fun v => decide (v < p.safety_lv)) then
        some (.SAFETY_UNDERVOLTAGE, o.config.outlet_id)
      else safetyCheck d p rest
    else safetyCheck d p rest

/-- Step 3 of `process`: parameter validation over connected outlets
(`ems_logic.py` lines 189-198). -/
def validateConfigs (p : EMSParameters) :
    List OutletDevice → Option (LogicResult × Nat)
  | [] => none
  | o :: rest =>
    if o.config.start_soc ≤ o.config.stop_soc then
      some (.ERROR_SOC_CONFIG, o.config.outlet_id)
    else if o.config.hv_threshold ≤ o.config.lv_threshold then
      some (.ERROR_VOLTAGE_CONFIG, o.config.outlet_id)
    else if o.config.lv_threshold ≤ p.safety_lv then
      some (.ERROR_CRITICAL_CONFIG, o.config.outlet_id)
    else validateConfigs p rest

/-- Stable insertion of an outlet into a priority-sorted list (an element
already in the list stays in front of a newcomer with equal priority,
matching Python's stable `sorted`). -/
def insertByPriority (x : OutletDevice) : List OutletDevice → List OutletDevice
  | [] => [x]
  | y :: ys =>
    if y.config.priority < x.config.priority then y :: insertByPriority x ys
    else x :: y :: ys

/-- `sorted(connected_outlets.values(), key=lambda o: o.config.priority)`:
stable ascending sort by priority. -/
def sortByPriority : List OutletDevice → List OutletDevice
  | [] => []
  | x :: xs => insertByPriority x (sortByPriority xs)

/-- Runtime tracking loop of `process` (`ems_logic.py` lines 204-208). -/
def trackRuntime (now : ℚ) : List OutletDevice → LogicState → LogicState
  | [], st => st
  | o :: rest, st =>
    trackRuntime now rest
      (if o.current_state then st.start_runtime o.config.outlet_id now
       else st.reset_runtime o.config.outlet_id)

/-- First cascade pass of `process` (`ems_logic.py` lines 211-236): turn
off running outlets that violate their OFF conditions.  The argument list
is already reversed (`reversed(sorted_outlets)`). -/
def shutdownPass (d : InverterData) (now : ℚ) :
    List OutletDevice → LogicState → PassOut
  | [], st => .cont st
  | o :: rest, st =>
    if o.current_state then
      let oid := o.config.outlet_id
      let tv := d.voltages.getD (phaseIdx o.config.target_phase) 0
      if o.config.voltage_enabled && decide (tv < o.config.lv_threshold) then
        let st1 := st.start_lv_timer oid now
        if st1.lv_timer_elapsed oid o.config.lv_delay now then
          .ret .OFF_UNDERVOLTAGE (some oid) [.turnOff oid]
            ((st1.reset_runtime oid).mark_lv_shutdown oid)
        else
          .ret .OFF_UNDERVOLTAGE (some oid) [] st1
      else
        let st1 := st.reset_lv_timer oid
        if o.config.soc_enabled && decide (d.soc ≤ o.config.stop_soc) then
          .ret .OFF_BATTERY_LOW (some oid) [.turnOff oid] (st1.reset_runtime oid)
        else
          shutdownPass d now rest st1
    else shutdownPass d now rest st

/-- Python `max` over a nonempty list (0 for the empty list, which the
engine never queries). -/
def maxQ : List ℚ → ℚ
  | [] => 0
  | x :: xs => xs.foldl max x

/-- The priority-1 gating check at the top of the startup pass
(`ems_logic.py` lines 244-253).  Returns `true` when the outlet may
proceed, `false` when the loop `continue`s past it.  `rs` is the
`runtime_start` map of the engine state at that point. -/
def p1Gate (sortedAll : List OutletDevice) (o : OutletDevice)
    (rs : Nat → Option ℚ) (now : ℚ) : Bool :=
  if o.config.priority > 1 then
    let p1 := sortedAll.filter (fun x => decide (x.config.priority = 1))
    if p1.isEmpty then true
    else
      let running := p1.filter (fun x => x.current_state)
      if running.isEmpty then false
      else
        let rt := maxQ (running.map (fun x =>
          match rs x.config.outlet_id with
          | none => 0
          | some t => now - t))
        decide (rt ≥ o.config.runtime_delay)
  else true

/-- Outcome of the headroom/voltage-floor/trigger block of the startup pass
(`ems_logic.py` lines 277-319): either silently skip to the next outlet or
return.  The block does not modify engine state. -/
inductive GateOut where
  | skip
  | ret (result : LogicResult) (named : Nat) (cmds : List Cmd)

/-- Headroom gates, voltage floor and the three independent ON triggers of
the startup pass (`ems_logic.py` lines 277-319). -/
def startTriggers (d : InverterData) (p : EMSParameters) (o : OutletDevice) : GateOut :=
  let oid := o.config.outlet_id
  let tidx := phaseIdx o.config.target_phase
  let tv := d.voltages.getD tidx 0
  let export_watts : Int := if d.grid_power < 0 then |d.grid_power| else 0
  let available_headroom := p.phase_max - d.ups_loads.getD tidx 0
  if available_headroom < o.config.headroom then .skip
  else if d.ups_loads.sum + o.config.headroom > p.max_ups_total_power then .skip
  else if o.config.voltage_enabled && decide (tv < o.config.lv_threshold) then
    let would_activate :=
      (o.config.soc_enabled && decide (d.soc ≥ o.config.start_soc)) ||
      (o.config.export_enabled && decide (export_watts ≥ o.config.export_limit))
    if would_activate then .ret .WAIT_LOW_VOLTAGE oid [] else .skip
  else if o.config.voltage_enabled && decide (tv ≥ o.config.hv_threshold) then
    .ret .ON_HV_DUMP oid [.turnOn oid]
  else if o.config.export_enabled && decide (export_watts ≥ o.config.export_limit) then
    .ret .ON_EXPORT_DUMP oid [.turnOn oid]
  else if o.config.soc_enabled && decide (d.soc ≥ o.config.start_soc) then
    .ret .ON_AUTO_START oid [.turnOn oid]
  else .skip

/-- Second cascade pass of `process` (`ems_logic.py` lines 239-319): try to
turn on outlets by ascending priority.  `sortedAll` is the full sorted list
used for the priority-1 gating. -/
def startupPass (d : InverterData) (p : EMSParameters)
    (sortedAll : List OutletDevice) (now : ℚ) :
    List OutletDevice → LogicState → PassOut
  | [], st => .cont st
  | o :: rest, st =>
    if o.current_state then startupPass d p sortedAll now rest st
    else if !(p1Gate sortedAll o st.runtime_start now) then
      startupPass d p sortedAll now rest st
    else
      let oid := o.config.outlet_id
      let tv := d.voltages.getD (phaseIdx o.config.target_phase) 0
      if st.is_lv_shutdown oid then
        if decide (tv ≥ o.config.lv_recovery_voltage) then
          let st1 := st.start_lv_recovery oid now
          if st1.lv_recovery_elapsed oid o.config.lv_recovery_delay now then
            let st2 := st1.clear_lv_shutdown oid
            match startTriggers d p o with
            | .skip => startupPass d p sortedAll now rest st2
            | .ret r n c => .ret r (some n) c st2
          else
            .ret .WAIT_LV_RECOVERY (some oid) [] st1
        else
          .ret .WAIT_LV_RECOVERY (some oid) [] (st.reset_lv_recovery oid)
      else
        match startTriggers d p o with
        | .skip => startupPass d p sortedAll now rest st
        | .ret r n c => .ret r (some n) c st

/-- `EMSLogic.process` (`ems_logic.py` lines 137-326) as a pure function:
inverter data, parameters, the outlet list (in registry order), the engine
state and the current wall-clock time go in; the result, the outlet named
by the detail message, the command trace and the new engine state come
out. -/
def process (d : InverterData) (p : EMSParameters) (outlets : List OutletDevice)
    (st : LogicState) (now : ℚ) : ProcOut :=
  if outlets.isEmpty then ⟨.TAPO_OFFLINE, none, [], st⟩
  else
    let conn := outlets.filter (fun o => o.is_connected)
    if conn.isEmpty then ⟨.TAPO_OFFLINE, none, [], st⟩
    else
      match safetyCheck d p conn with
      | some (r, oid) => ⟨r, some oid, [.turnOff oid], st⟩
      | none =>
        if p.manual_mode then ⟨.MANUAL_MODE, none, [], st⟩
        else
          match validateConfigs p conn with
          | some (r, oid) => ⟨r, some oid, [], st⟩
          | none =>
            let sorted := sortByPriority conn
            let st1 := trackRuntime now sorted st
            match shutdownPass d now sorted.reverse st1 with
            | .ret r n c st2 => ⟨r, n, c, st2⟩
            | .cont st2 =>
              match startupPass d p sorted now sorted st2 with
              | .ret r n c st3 => ⟨r, n, c, st3⟩
              | .cont st3 =>
                if conn.any (fun o => o.current_state) then ⟨.RUNNING_OK, none, [], st3⟩
                else ⟨.WAIT_CHARGING, none, [], st3⟩

/-! ## Schedule resolver (`ui_components.py` `TimeSchedulePanel` + `main.py`) -/

/-- One schedule row's data as produced by `TimeScheduleRow.get_schedule`
(`ui_components.py` lines 551-564).  Note: the dict built there has exactly
the keys `enabled`, `start_hour`, `start_min`, `end_hour`, `end_min`,
`max_charge_amps`, `grid_charge_amps` — there is no
`max_discharge_amps` key. -/
structure ScheduleSlot where
  enabled : Bool
  start_hour : Nat
  start_min : Nat
  end_hour : Nat
  end_min : Nat
  max_charge_amps : Int
  grid_charge_amps : Int
  deriving DecidableEq, Repr

/-- The keys present in the dict returned by `TimeScheduleRow.get_schedule`. -/
def scheduleRowKeys : List String :=
  ["enabled", "start_hour", "start_min", "end_hour", "end_min",
   "max_charge_amps", "grid_charge_amps"]

/-- The keys present in the dict returned by
`TimeSchedulePanel.get_default_values` (`ui_components.py` lines 774-782). -/
def defaultValuesKeys : List String :=
  ["max_charge_amps", "grid_charge_amps"]

/-- The keys `App._process_schedule` reads from the active slot and from the
defaults (`main.py` lines 311-313 and 326-328). -/
def processScheduleReadKeys : List String :=
  ["max_charge_amps", "grid_charge_amps", "max_discharge_amps"]

/-- Whether a slot is active at `nowMin` minutes past midnight
(`ui_components.py` lines 750-761): same-day window `[start, end)` when
`start ≤ end`, otherwise the overnight wrap `now ≥ start ∨ now < end`. -/
def slotMatches (nowMin : Nat) (s : ScheduleSlot) : Bool :=
  let startM := s.start_hour * 60 + s.start_min
  let endM := s.end_hour * 60 + s.end_min
  if startM ≤ endM then decide (startM ≤ nowMin) && decide (nowMin < endM)
  else decide (nowMin ≥ startM) || decide (nowMin < endM)

/-- `TimeSchedulePanel.get_active_schedule` (`ui_components.py` lines
733-763): `none` when scheduling is disabled, otherwise the first enabled
row whose time window contains the current time.  Rows whose
`get_schedule` parse fails are skipped in the source; the embedding takes
the list of successfully parsed rows. -/
def get_active_schedule (panelEnabled : Bool) (rows : List ScheduleSlot)
    (nowMin : Nat) : Option ScheduleSlot :=
  if !panelEnabled then none
  else rows.find? (fun s => s.enabled && slotMatches nowMin s)

/-! ## Overpower protection (`main.py` `_process_overpower_protection`) -/

/-- `ProtectionPanel.get_settings` values (`ui_components.py` lines
995-1019). -/
structure ProtectionSettings where
  max_sell_power : ℚ
  power_threshold_pct : ℚ
  recovery_threshold_pct : ℚ
  voltage_warning : ℚ
  voltage_recovery : ℚ
  charge_step : Int
  adjustment_interval : ℚ
  deriving DecidableEq

/-- The protection controller's mutable state (`main.py` lines 51-53). -/
structure ProtectionState where
  boost_amps : Int
  active : Bool
  last_adjustment : ℚ
  deriving DecidableEq, Repr

/-- Result of one `_process_overpower_protection` call: the new state and
the list of max-charge-current values passed to
`inverter.set_max_charge_current`. -/
structure ProtStep where
  state : ProtectionState
  writes : List Int
  deriving DecidableEq, Repr

/-- `export_power = abs(min(0, data.grid_power))` (`main.py` line 424). -/
def protExport (grid_power : Int) : Int :=
  |min 0 grid_power|

/-- `App._process_overpower_protection` (`main.py` lines 403-499) as a pure
step function.  `base` is `_get_base_charge_amps()` and `maxlimit` the
configured `max_charge_amps_limit` (a config value per spec §6).  Display
updates are omitted; the state and register writes are returned. -/
def protectionStep (enabled : Bool) (s : ProtectionSettings)
    (base maxlimit : Int) (grid_power : Int) (voltages : List ℚ)
    (now : ℚ) (st : ProtectionState) : ProtStep :=
  if !enabled then ⟨st, []⟩
  else
    let export_power := protExport grid_power
    let maxV := maxQ voltages
    if now - st.last_adjustment < s.adjustment_interval then ⟨st, []⟩
    else
      let power_warning_threshold := s.max_sell_power * s.power_threshold_pct / 100
      let power_recovery_threshold := s.max_sell_power * s.recovery_threshold_pct / 100
      let needs_boost :=
        decide ((export_power : ℚ) ≥ power_warning_threshold) ||
        decide (maxV ≥ s.voltage_warning)
      let can_recover :=
        decide ((export_power : ℚ) < power_recovery_threshold) &&
        decide (maxV < s.voltage_recovery)
      if needs_boost then
        let new_boost := min (st.boost_amps + s.charge_step) (maxlimit - base)
        if new_boost ≠ st.boost_amps then
          ⟨⟨new_boost, true, now⟩, [base + new_boost]⟩
        else ⟨st, []⟩
      else if can_recover && decide (st.boost_amps > 0) then
        let new_boost := max 0 (st.boost_amps - s.charge_step)
        if new_boost ≠ st.boost_amps then
          ⟨⟨new_boost, if new_boost = 0 then false else st.active, now⟩,
           [base + new_boost]⟩
        else ⟨st, []⟩
      else ⟨st, []⟩

/-! ## Outlet connection cycle (`tapo_manager.py`) -/

/-- The per-outlet mutable state of `OutletDevice` in `tapo_manager.py`
(`device` is abstracted to the boolean `has_device`). -/
structure TapoOutletState where
  has_device : Bool
  retry_count : Nat
  permanent_failure : Bool
  last_error_logged : Bool
  is_connected : Bool
  current_state : Bool
  target_state : Option Bool
  deriving DecidableEq, Repr

/-- Environment of one cycle of `_main_task` for one outlet: whether each
awaited device operation succeeds, how a raised exception is classified
(`"SessionTimeout"`/`"403"`/`"Forbidden"` in its message), and the on/off
state the device reports. -/
structure CycleEnv where
  connect_ok : Bool
  connect_session_err : Bool
  update_ok : Bool
  update_session_err : Bool
  apply_ok : Bool
  apply_session_err : Bool
  device_on : Bool
  deriving DecidableEq, Repr

/-- The `except` block of `_main_task` (`tapo_manager.py` lines 125-147):
session errors drop the device handle without counting a retry; other
errors drop the handle, mark the error logged and increment the retry
counter. -/
def tapoFailHandler (session : Bool) (o : TapoOutletState) : TapoOutletState :=
  if session then
    { o with has_device := false, is_connected := false }
  else
    { o with has_device := false, is_connected := false,
             last_error_logged := true,
             retry_count := o.retry_count + 1 }

/-- Full-cycle success epilogue (`tapo_manager.py` lines 120-123). -/
def tapoFullSuccess (o : TapoOutletState) : TapoOutletState :=
  { o with retry_count := 0, last_error_logged := false,
           permanent_failure := false }

/-- `update_state` plus `apply_target_state` plus the success epilogue
(`tapo_manager.py` lines 33-54 and 114-123), entered once a device handle
exists. -/
def tapoAfterConnect (env : CycleEnv) (o : TapoOutletState) : TapoOutletState :=
  if !env.update_ok then tapoFailHandler env.update_session_err o
  else
    let o1 := { o with current_state := env.device_on, is_connected := true }
    match o1.target_state with
    | none => tapoFullSuccess o1
    | some t =>
      if t != o1.current_state then
        if !env.apply_ok then
          tapoFailHandler env.apply_session_err { o1 with target_state := none }
        else tapoFullSuccess { o1 with target_state := none }
      else tapoFullSuccess { o1 with target_state := none }

/-- One cycle of `TapoManager._main_task` for one outlet (`tapo_manager.py`
lines 86-147).  The boolean in the result records whether `connect()` was
attempted this cycle. -/
def tapoCycleStep (env : CycleEnv) (o : TapoOutletState) :
    TapoOutletState × Bool :=
  if o.permanent_failure then (o, false)
  else if !o.has_device then
    if o.retry_count ≥ 10 then
      ({ o with permanent_failure := true, is_connected := false,
                last_error_logged := true }, false)
    else if o.retry_count > 0 &&
        decide (o.retry_count % (min (2 ^ o.retry_count) 60 / 2) ≠ 0) then
      ({ o with retry_count := o.retry_count + 1 }, false)
    else if !env.connect_ok then
      (tapoFailHandler env.connect_session_err o, true)
    else
      (tapoAfterConnect env
        { o with has_device := true, retry_count := 0,
                 last_error_logged := false }, true)
  else (tapoAfterConnect env o, false)

/-- `TapoManager.toggle` (`tapo_manager.py` lines 161-171). -/
def tapoToggle (o : TapoOutletState) : TapoOutletState :=
  if o.permanent_failure then
    { o with permanent_failure := false, retry_count := 0,
             last_error_logged := false,
             target_state := some (!o.current_state) }
  else { o with target_state := some (!o.current_state) }

/-- Run a sequence of cycles; returns the final state and whether any cycle
attempted a connection. -/
def tapoRunCycles : List CycleEnv → TapoOutletState → TapoOutletState × Bool
  | [], o => (o, false)
  | e :: es, o =>
    let (o1, att) := tapoCycleStep e o
    let (o2, atts) := tapoRunCycles es o1
    (o2, att || atts)

/-! ## Inverter link error handling (`deye_inverter.py`) -/

/-- Character-list prefix test. -/
def chPre : List Char → List Char → Bool
  | [], _ => true
  | _ :: _, [] => false
  | a :: as, b :: bs => a = b && chPre as bs

/-- Contiguous-sublist test on character lists. -/
def chSub (pat : List Char) : List Char → Bool
  | [] => pat.isEmpty
  | c :: rest => chPre pat (c :: rest) || chSub pat rest

/-- Python `sub in s`. -/
def strContains (s sub : String) : Bool :=
  chSub sub.toList s.toList

/-- The acknowledge-error classification of `_write_register`
(`deye_inverter.py` line 286). -/
def isAckError (m : String) : Bool :=
  strContains m "AcknowledgeError" || strContains m "Acknowledge"

/-- The transient-communication-error classification of `_write_register`
(`deye_inverter.py` lines 291-293); `error_msg.strip() == ""` is modelled
as "every character is whitespace", which is what Python's `strip`
emptiness test amounts to. -/
def isTransientError (m : String) : Bool :=
  strContains m "V5FrameError" || strContains m "sequence number" ||
  strContains m "unpack requires a buffer" || strContains m "Empty" ||
  m.toList.all (fun c => c.isWhitespace)

/-- Environment of one inverter read call: whether creating the modbus
client raises and whether the register reads in the body raise. -/
structure InvEnv where
  connect_raises : Bool
  op_raises : Bool
  deriving DecidableEq, Repr

/-- `DeyeInverter._connect` (`deye_inverter.py` lines 77-90): reuse the
handle if present, else create one (which may raise, leaving the handle
`None` and returning `False`).  Result: (returned bool, new handle). -/
def inv_connect (connect_raises : Bool) (conn : Option Unit) :
    Bool × Option Unit :=
  match conn with
  | some _ => (true, some ())
  | none => if connect_raises then (false, none) else (true, some ())

/-- `DeyeInverter.read_data` (`deye_inverter.py` lines 96-139), tracking
only success/failure of the snapshot and the connection handle: any
exception in the body sets `_modbus = None` and returns `None`. -/
def read_data (env : InvEnv) (conn : Option Unit) :
    Option Unit × Option Unit :=
  let (ok, c1) := inv_connect env.connect_raises conn
  if !ok then (none, c1)
  else if env.op_raises then (none, none)
  else (some (), c1)

/-- `DeyeInverter.read_battery_settings` (`deye_inverter.py` lines
141-162): an exception in the body is caught, printed, and the triple
`(None, None, None)` returned — the handle is NOT dropped. -/
def read_battery_settings (env : InvEnv) (regs : Int × Int × Int)
    (conn : Option Unit) :
    (Option Int × Option Int × Option Int) × Option Unit :=
  let (ok, c1) := inv_connect env.connect_raises conn
  if !ok then ((none, none, none), c1)
  else if env.op_raises then ((none, none, none), c1)
  else ((some regs.1, some regs.2.1, some regs.2.2), c1)

/-- `DeyeInverter.read_max_sell_power` (`deye_inverter.py` lines 164-180):
an exception in the body is caught and `None` returned — the handle is NOT
dropped. -/
def read_max_sell_power (env : InvEnv) (reg : Int) (conn : Option Unit) :
    Option Int × Option Unit :=
  let (ok, c1) := inv_connect env.connect_raises conn
  if !ok then (none, c1)
  else if env.op_raises then (none, c1)
  else (some reg, c1)

/-- Environment of one `_write_register` attempt: whether creating the
modbus client raises, and the outcome of the write
(`none` = succeeds, `some msg` = raises with message `msg`). -/
structure WriteAttemptEnv where
  connect_raises : Bool
  raise_msg : Option String

/-- `DeyeInverter._write_register` (`deye_inverter.py` lines 257-307); one
list element per remaining loop iteration (the source calls it with
`retries = 3`).  Acknowledge errors are treated as success; transient
communication errors drop the handle and retry; any other exception
returns `False` with the handle kept. -/
def write_register (conn : Option Unit) :
    List WriteAttemptEnv → Bool × Option Unit
  | [] => (false, conn)
  | a :: rest =>
    let (ok, c1) := inv_connect a.connect_raises conn
    if !ok then (false, c1)
    else
      match a.raise_msg with
      | none => (true, c1)
      | some msg =>
        if isAckError msg then (true, c1)
        else if isTransientError msg then write_register none rest
        else (false, c1)

/-! ## Helper lemmas -/

@[simp]
theorem updFn_self {α : Type} (f : Nat → α) (k : Nat) (v : α) : updFn f k v k = v := by
  simp [updFn]

theorem updFn_ne {α : Type} (f : Nat → α) {i k : Nat} (v : α) (h : i ≠ k) :
    updFn f k v i = f i := by
  simp [updFn, h]

@[simp]
theorem reset_lv_timer_runtime_start (s : LogicState) (oid : Nat) :
    (s.reset_lv_timer oid).runtime_start = s.runtime_start := rfl

@[simp]
theorem reset_lv_timer_lv_shutdown (s : LogicState) (oid : Nat) :
    (s.reset_lv_timer oid).lv_shutdown = s.lv_shutdown := rfl

@[simp]
theorem reset_lv_timer_lv_recovery_timers (s : LogicState) (oid : Nat) :
    (s.reset_lv_timer oid).lv_recovery_timers = s.lv_recovery_timers := rfl

@[simp]
theorem reset_lv_timer_lv_timers_self (s : LogicState) (oid : Nat) :
    (s.reset_lv_timer oid).lv_timers oid = none := by
  simp [LogicState.reset_lv_timer]

theorem reset_lv_timer_lv_timers_ne (s : LogicState) {i oid : Nat} (h : i ≠ oid) :
    (s.reset_lv_timer oid).lv_timers i = s.lv_timers i := by
  simp [LogicState.reset_lv_timer, updFn_ne _ _ h]

@[simp]
theorem start_lv_timer_runtime_start (s : LogicState) (oid : Nat) (now : ℚ) :
    (s.start_lv_timer oid now).runtime_start = s.runtime_start := by
  unfold LogicState.start_lv_timer; cases s.lv_timers oid <;> rfl

@[simp]
theorem start_lv_timer_lv_shutdown (s : LogicState) (oid : Nat) (now : ℚ) :
    (s.start_lv_timer oid now).lv_shutdown = s.lv_shutdown := by
  unfold LogicState.start_lv_timer; cases s.lv_timers oid <;> rfl

@[simp]
theorem start_lv_timer_lv_recovery_timers (s : LogicState) (oid : Nat) (now : ℚ) :
    (s.start_lv_timer oid now).lv_recovery_timers = s.lv_recovery_timers := by
  unfold LogicState.start_lv_timer; cases s.lv_timers oid <;> rfl

theorem start_lv_timer_lv_timers_self (s : LogicState) (oid : Nat) (now : ℚ) :
    (s.start_lv_timer oid now).lv_timers oid = some ((s.lv_timers oid).getD now) := by
  unfold LogicState.start_lv_timer
  cases h : s.lv_timers oid <;> simp [h]

theorem start_lv_timer_lv_timers_ne (s : LogicState) {i oid : Nat} (now : ℚ) (h : i ≠ oid) :
    (s.start_lv_timer oid now).lv_timers i = s.lv_timers i := by
  unfold LogicState.start_lv_timer
  cases hh : s.lv_timers oid <;> simp [updFn_ne _ _ h]

@[simp]
theorem start_runtime_lv_timers (s : LogicState) (oid : Nat) (now : ℚ) :
    (s.start_runtime oid now).lv_timers = s.lv_timers := by
  unfold LogicState.start_runtime; cases s.runtime_start oid <;> rfl

@[simp]
theorem start_runtime_lv_shutdown (s : LogicState) (oid : Nat) (now : ℚ) :
    (s.start_runtime oid now).lv_shutdown = s.lv_shutdown := by
  unfold LogicState.start_runtime; cases s.runtime_start oid <;> rfl

@[simp]
theorem start_runtime_lv_recovery_timers (s : LogicState) (oid : Nat) (now : ℚ) :
    (s.start_runtime oid now).lv_recovery_timers = s.lv_recovery_timers := by
  unfold LogicState.start_runtime; cases s.runtime_start oid <;> rfl

@[simp]
theorem reset_runtime_lv_timers (s : LogicState) (oid : Nat) :
    (s.reset_runtime oid).lv_timers = s.lv_timers := rfl

@[simp]
theorem reset_runtime_lv_shutdown (s : LogicState) (oid : Nat) :
    (s.reset_runtime oid).lv_shutdown = s.lv_shutdown := rfl

@[simp]
theorem reset_runtime_lv_recovery_timers (s : LogicState) (oid : Nat) :
    (s.reset_runtime oid).lv_recovery_timers = s.lv_recovery_timers := rfl

@[simp]
theorem mark_lv_shutdown_lv_timers (s : LogicState) (oid : Nat) :
    (s.mark_lv_shutdown oid).lv_timers = s.lv_timers := rfl

@[simp]
theorem mark_lv_shutdown_runtime_start (s : LogicState) (oid : Nat) :
    (s.mark_lv_shutdown oid).runtime_start = s.runtime_start := rfl

@[simp]
theorem mark_lv_shutdown_self (s : LogicState) (oid : Nat) :
    (s.mark_lv_shutdown oid).lv_shutdown oid = true := by
  simp [LogicState.mark_lv_shutdown]

@[simp]
theorem start_lv_recovery_lv_timers (s : LogicState) (oid : Nat) (now : ℚ) :
    (s.start_lv_recovery oid now).lv_timers = s.lv_timers := by
  unfold LogicState.start_lv_recovery; cases s.lv_recovery_timers oid <;> rfl

@[simp]
theorem start_lv_recovery_runtime_start (s : LogicState) (oid : Nat) (now : ℚ) :
    (s.start_lv_recovery oid now).runtime_start = s.runtime_start := by
  unfold LogicState.start_lv_recovery; cases s.lv_recovery_timers oid <;> rfl

@[simp]
theorem start_lv_recovery_lv_shutdown (s : LogicState) (oid : Nat) (now : ℚ) :
    (s.start_lv_recovery oid now).lv_shutdown = s.lv_shutdown := by
  unfold LogicState.start_lv_recovery; cases s.lv_recovery_timers oid <;> rfl

theorem start_lv_recovery_self (s : LogicState) (oid : Nat) (now : ℚ) :
    (s.start_lv_recovery oid now).lv_recovery_timers oid =
      some ((s.lv_recovery_timers oid).getD now) := by
  unfold LogicState.start_lv_recovery
  cases h : s.lv_recovery_timers oid <;> simp [h]

@[simp]
theorem reset_lv_recovery_lv_timers (s : LogicState) (oid : Nat) :
    (s.reset_lv_recovery oid).lv_timers = s.lv_timers := rfl

@[simp]
theorem reset_lv_recovery_runtime_start (s : LogicState) (oid : Nat) :
    (s.reset_lv_recovery oid).runtime_start = s.runtime_start := rfl

@[simp]
theorem reset_lv_recovery_lv_shutdown (s : LogicState) (oid : Nat) :
    (s.reset_lv_recovery oid).lv_shutdown = s.lv_shutdown := rfl

@[simp]
theorem reset_lv_recovery_self (s : LogicState) (oid : Nat) :
    (s.reset_lv_recovery oid).lv_recovery_timers oid = none := by
  simp [LogicState.reset_lv_recovery]

@[simp]
theorem clear_lv_shutdown_lv_timers (s : LogicState) (oid : Nat) :
    (s.clear_lv_shutdown oid).lv_timers = s.lv_timers := rfl

@[simp]
theorem clear_lv_shutdown_runtime_start (s : LogicState) (oid : Nat) :
    (s.clear_lv_shutdown oid).runtime_start = s.runtime_start := rfl

@[simp]
theorem clear_lv_shutdown_self (s : LogicState) (oid : Nat) :
    (s.clear_lv_shutdown oid).lv_shutdown oid = false := by
  simp [LogicState.clear_lv_shutdown]

theorem clear_lv_shutdown_ne (s : LogicState) {i oid : Nat} (h : i ≠ oid) :
    (s.clear_lv_shutdown oid).lv_shutdown i = s.lv_shutdown i := by
  simp [LogicState.clear_lv_shutdown, updFn_ne _ _ h]

theorem trackRuntime_lv_timers (now : ℚ) (l : List OutletDevice) (st : LogicState) :
    (trackRuntime now l st).lv_timers = st.lv_timers := by
  induction l generalizing st with
  | nil => rfl
  | cons o rest ih =>
    simp only [trackRuntime]
    rw [ih]
    split <;> simp

theorem trackRuntime_lv_shutdown (now : ℚ) (l : List OutletDevice) (st : LogicState) :
    (trackRuntime now l st).lv_shutdown = st.lv_shutdown := by
  induction l generalizing st with
  | nil => rfl
  | cons o rest ih =>
    simp only [trackRuntime]
    rw [ih]
    split <;> simp

theorem trackRuntime_lv_recovery_timers (now : ℚ) (l : List OutletDevice) (st : LogicState) :
    (trackRuntime now l st).lv_recovery_timers = st.lv_recovery_timers := by
  induction l generalizing st with
  | nil => rfl
  | cons o rest ih =>
    simp only [trackRuntime]
    rw [ih]
    split <;> simp

theorem mem_insertByPriority {y x : OutletDevice} {l : List OutletDevice} :
    y ∈ insertByPriority x l ↔ y = x ∨ y ∈ l := by
  induction l with
  | nil => simp [insertByPriority]
  | cons z zs ih =>
    simp only [insertByPriority]
    split
    · simp only [List.mem_cons, ih]
      tauto
    · simp only [List.mem_cons]

theorem mem_sortByPriority {y : OutletDevice} {l : List OutletDevice} :
    y ∈ sortByPriority l ↔ y ∈ l := by
  induction l with
  | nil => simp [sortByPriority]
  | cons x xs ih =>
    simp [sortByPriority, mem_insertByPriority, ih]

/-- The final engine state of a pass outcome. -/
def PassOut.finalState : PassOut → LogicState
  | .ret _ _ _ st => st
  | .cont st => st

/-- The result of a pass outcome when it returned early. -/
def PassOut.retResult? : PassOut → Option LogicResult
  | .ret r _ _ _ => some r
  | .cont _ => none

/-- The named outlet of a pass outcome when it returned early. -/
def PassOut.retNamed : PassOut → Option Nat
  | .ret _ n _ _ => n
  | .cont _ => none

/-- The command trace of a pass outcome. -/
def PassOut.retCmds : PassOut → List Cmd
  | .ret _ _ c _ => c
  | .cont _ => []

theorem shutdownPass_off_skip (d : InverterData) (now : ℚ) (pre l : List OutletDevice)
    (st : LogicState) (h : ∀ x ∈ pre, x.current_state = false) :
    shutdownPass d now (pre ++ l) st = shutdownPass d now l st := by
  induction pre with
  | nil => rfl
  | cons o rest ih =>
    have ho := h o (by simp)
    simp only [List.cons_append, shutdownPass, ho]
    exact ih (fun x hx => h x (by simp [hx]))

theorem safetyCheck_none_of_all_off (d : InverterData) (p : EMSParameters)
    (l : List OutletDevice) (h : ∀ x ∈ l, x.current_state = false) :
    safetyCheck d p l = none := by
  induction l with
  | nil => rfl
  | cons o rest ih =>
    have ho := h o (by simp)
    simp only [safetyCheck, ho]
    exact ih (fun x hx => h x (by simp [hx]))

theorem safetyCheck_none_of_no_violation (d : InverterData) (p : EMSParameters)
    (l : List OutletDevice)
    (h1 : ¬ d.ups_loads.sum > p.max_ups_total_power)
    (h2 : d.ups_loads.any (fun w => decide (w > p.phase_max)) = false)
    (h3 : d.voltages.any (fun v => decide (v < p.safety_lv)) = false) :
    safetyCheck d p l = none := by
  induction l with
  | nil => rfl
  | cons o rest ih =>
    simp only [safetyCheck, h1, h2, h3]
    split <;> simp [ih]

/-- The first on outlet in the connected list determines the safety
verdict. -/
theorem safetyCheck_first_on (d : InverterData) (p : EMSParameters)
    (pre suf : List OutletDevice) (o : OutletDevice)
    (hpre : ∀ x ∈ pre, x.current_state = false) (ho : o.current_state = true) :
    safetyCheck d p (pre ++ o :: suf) =
      if d.ups_loads.sum > p.max_ups_total_power then
        some (.SAFETY_UPS_OVERLOAD, o.config.outlet_id)
      else if d.ups_loads.any (fun w => decide (w > p.phase_max)) then
        some (.SAFETY_OVERLOAD, o.config.outlet_id)
      else if d.voltages.any (fun v => decide (v < p.safety_lv)) then
        some (.SAFETY_UNDERVOLTAGE, o.config.outlet_id)
      else safetyCheck d p suf := by
  induction pre with
  | nil => simp [safetyCheck, ho]
  | cons x rest ih =>
    have hx := hpre x (by simp)
    simp only [List.cons_append, safetyCheck, hx]
    exact ih (fun y hy => hpre y (by simp [hy]))

/-- A single outlet config passes all three validation checks. -/
def configValid (p : EMSParameters) (c : OutletConfig) : Bool :=
  decide (c.stop_soc < c.start_soc) && decide (c.lv_threshold < c.hv_threshold) &&
  decide (p.safety_lv < c.lv_threshold)

theorem validateConfigs_none (p : EMSParameters) (l : List OutletDevice)
    (h : ∀ x ∈ l, configValid p x.config = true) :
    validateConfigs p l = none := by
  induction l with
  | nil => rfl
  | cons o rest ih =>
    have ho := h o (by simp)
    simp only [configValid, Bool.and_eq_true, decide_eq_true_eq] at ho
    simp only [validateConfigs, if_neg (by omega : ¬ o.config.start_soc ≤ o.config.stop_soc),
      if_neg (not_le.mpr ho.1.2), if_neg (not_le.mpr ho.2)]
    exact ih (fun x hx => h x (by simp [hx]))

theorem validateConfigs_first_violation (p : EMSParameters)
    (pre suf : List OutletDevice) (o : OutletDevice)
    (hpre : ∀ x ∈ pre, configValid p x.config = true)
    (ho : o.config.start_soc ≤ o.config.stop_soc) :
    validateConfigs p (pre ++ o :: suf) =
      some (.ERROR_SOC_CONFIG, o.config.outlet_id) := by
  induction pre with
  | nil => simp [validateConfigs, ho]
  | cons x rest ih =>
    have hx := hpre x (by simp)
    simp only [configValid, Bool.and_eq_true, decide_eq_true_eq] at hx
    simp only [List.cons_append, validateConfigs,
      if_neg (by omega : ¬ x.config.start_soc ≤ x.config.stop_soc),
      if_neg (not_le.mpr hx.1.2), if_neg (not_le.mpr hx.2)]
    exact ih (fun y hy => hpre y (by simp [hy]))

theorem safetyCheck_spec (d : InverterData) (p : EMSParameters)
    (l : List OutletDevice) (r : LogicResult) (k : Nat)
    (h : safetyCheck d p l = some (r, k)) :
    r = .SAFETY_UPS_OVERLOAD ∨ r = .SAFETY_OVERLOAD ∨ r = .SAFETY_UNDERVOLTAGE := by
  induction l with
  | nil => simp [safetyCheck] at h
  | cons o rest ih =>
    simp only [safetyCheck] at h
    split at h
    · split at h
      · cases h; tauto
      · split at h
        · cases h; tauto
        · split at h
          · cases h; tauto
          · exact ih h
    · exact ih h

theorem validateConfigs_spec (p : EMSParameters)
    (l : List OutletDevice) (r : LogicResult) (k : Nat)
    (h : validateConfigs p l = some (r, k)) :
    r = .ERROR_SOC_CONFIG ∨ r = .ERROR_VOLTAGE_CONFIG ∨ r = .ERROR_CRITICAL_CONFIG := by
  induction l with
  | nil => simp [validateConfigs] at h
  | cons o rest ih =>
    simp only [validateConfigs] at h
    split at h
    · cases h; tauto
    · split at h
      · cases h; tauto
      · split at h
        · cases h; tauto
        · exact ih h

theorem startTriggers_spec (d : InverterData) (p : EMSParameters) (o : OutletDevice)
    (r : LogicResult) (n : Nat) (c : List Cmd)
    (h : startTriggers d p o = .ret r n c) :
    n = o.config.outlet_id ∧
      ((r = .WAIT_LOW_VOLTAGE ∧ c = []) ∨
       ((r = .ON_HV_DUMP ∨ r = .ON_EXPORT_DUMP ∨ r = .ON_AUTO_START) ∧
        c = [.turnOn o.config.outlet_id])) := by
  simp only [startTriggers] at h
  repeat' split at h
  all_goals cases h
  all_goals simp

theorem shutdownPass_ret_spec (d : InverterData) (now : ℚ)
    (l : List OutletDevice) (st : LogicState) (r : LogicResult) (n : Option Nat)
    (c : List Cmd) (st' : LogicState)
    (h : shutdownPass d now l st = .ret r n c st') :
    (r = .OFF_UNDERVOLTAGE ∨ r = .OFF_BATTERY_LOW) ∧
      (∀ k, Cmd.turnOn k ∉ c) ∧
      (∃ x ∈ l, n = some x.config.outlet_id) := by
  induction l generalizing st with
  | nil => simp [shutdownPass] at h
  | cons o rest ih =>
    simp only [shutdownPass] at h
    split at h
    · split at h
      · split at h
        · cases h
          refine ⟨Or.inl rfl, ?_, ⟨o, by simp⟩⟩
          intro k hk
          simp at hk
        · cases h
          exact ⟨Or.inl rfl, by intro k hk; simp at hk, ⟨o, by simp⟩⟩
      · split at h
        · cases h
          refine ⟨Or.inr rfl, ?_, ⟨o, by simp⟩⟩
          intro k hk
          simp at hk
        · obtain ⟨h1, h2, x, hx, h3⟩ := ih _ h
          exact ⟨h1, h2, x, by simp [hx], h3⟩
    · obtain ⟨h1, h2, x, hx, h3⟩ := ih _ h
      exact ⟨h1, h2, x, by simp [hx], h3⟩

/-- If no outlet in the list carries the id `oid`, a shutdown pass over the
list neither touches the `lv_timers` / `lv_shutdown` entries of `oid` nor
names `oid`. -/
theorem shutdownPass_preserve (d : InverterData) (now : ℚ)
    (l : List OutletDevice) (st : LogicState) (oid : Nat)
    (h : ∀ x ∈ l, x.config.outlet_id ≠ oid) :
    ((shutdownPass d now l st).finalState).lv_timers oid = st.lv_timers oid ∧
      ((shutdownPass d now l st).finalState).lv_shutdown oid = st.lv_shutdown oid ∧
      (shutdownPass d now l st).retNamed ≠ some oid := by
  induction l generalizing st with
  | nil => simp [shutdownPass, PassOut.finalState, PassOut.retNamed]
  | cons o rest ih =>
    have hne : o.config.outlet_id ≠ oid := h o (by simp)
    have hne' : oid ≠ o.config.outlet_id := Ne.symm hne
    have hrest : ∀ x ∈ rest, x.config.outlet_id ≠ oid :=
      fun x hx => h x (by simp [hx])
    simp only [shutdownPass]
    split
    · split
      · split
        · simp only [PassOut.finalState, PassOut.retNamed]
          refine ⟨?_, ?_, by simp [hne]⟩
          · rw [mark_lv_shutdown_lv_timers, reset_runtime_lv_timers,
              start_lv_timer_lv_timers_ne _ _ hne']
          · simp only [LogicState.mark_lv_shutdown]
            rw [updFn_ne _ _ hne']
            simp
        · simp only [PassOut.finalState, PassOut.retNamed]
          exact ⟨start_lv_timer_lv_timers_ne _ _ hne', by simp, by simp [hne]⟩
      · split
        · simp only [PassOut.finalState, PassOut.retNamed]
          refine ⟨?_, by simp, by simp [hne]⟩
          rw [reset_runtime_lv_timers, reset_lv_timer_lv_timers_ne _ hne']
        · obtain ⟨h1, h2, h3⟩ := ih (st.reset_lv_timer o.config.outlet_id) hrest
          refine ⟨?_, ?_, h3⟩
          · rw [h1, reset_lv_timer_lv_timers_ne _ hne']
          · rw [h2]; simp
    · exact ih st hrest

/-- A shutdown pass that falls through (no early return) only resets
lv-timers: `runtime_start`, `lv_shutdown` and `lv_recovery_timers` are
untouched. -/
theorem shutdownPass_cont_spec (d : InverterData) (now : ℚ)
    (l : List OutletDevice) (st st' : LogicState)
    (h : shutdownPass d now l st = .cont st') :
    st'.runtime_start = st.runtime_start ∧
      st'.lv_shutdown = st.lv_shutdown ∧
      st'.lv_recovery_timers = st.lv_recovery_timers := by
  induction l generalizing st with
  | nil => cases h; simp
  | cons o rest ih =>
    simp only [shutdownPass] at h
    split at h
    · split at h
      · split at h
        · cases h
        · cases h
      · split at h
        · cases h
        · obtain ⟨h1, h2, h3⟩ := ih _ h
          exact ⟨by rw [h1]; simp, by rw [h2]; simp, by rw [h3]; simp⟩
    · exact ih _ h

/-- A startup pass never touches `lv_timers` or `runtime_start`, and any
early return it produces carries one of its five result kinds, no
`turnOff`, and a `turnOn` only for an off outlet of the list whose
priority-1 gate passed. -/
theorem startupPass_spec (d : InverterData) (p : EMSParameters)
    (sa : List OutletDevice) (now : ℚ) (l : List OutletDevice) (st : LogicState) :
    ((startupPass d p sa now l st).finalState).lv_timers = st.lv_timers ∧
      ((startupPass d p sa now l st).finalState).runtime_start = st.runtime_start ∧
      ((startupPass d p sa now l st).retResult? = none ∨
        ∃ r, (startupPass d p sa now l st).retResult? = some r ∧
          (r = .WAIT_LV_RECOVERY ∨ r = .WAIT_LOW_VOLTAGE ∨ r = .ON_HV_DUMP ∨
           r = .ON_EXPORT_DUMP ∨ r = .ON_AUTO_START)) ∧
      (∀ k, Cmd.turnOff k ∉ (startupPass d p sa now l st).retCmds) ∧
      (∀ k, Cmd.turnOn k ∈ (startupPass d p sa now l st).retCmds →
        ∃ x, x ∈ l ∧ x.config.outlet_id = k ∧ x.current_state = false ∧
          p1Gate sa x st.runtime_start now = true) := by
  induction l generalizing st with
  | nil =>
    simp [startupPass, PassOut.finalState, PassOut.retResult?, PassOut.retCmds]
  | cons o rest ih =>
    simp only [startupPass]
    split
    · obtain ⟨h1, h2, h3, h4, h5⟩ := ih st
      refine ⟨h1, h2, h3, h4, fun k hk => ?_⟩
      obtain ⟨x, hx, hk, hs, hg⟩ := h5 k hk
      exact ⟨x, by simp [hx], hk, hs, hg⟩
    · split
      · obtain ⟨h1, h2, h3, h4, h5⟩ := ih st
        refine ⟨h1, h2, h3, h4, fun k hk => ?_⟩
        obtain ⟨x, hx, hk, hs, hg⟩ := h5 k hk
        exact ⟨x, by simp [hx], hk, hs, hg⟩
      · rename_i ho hg
        split
        · split
          · split
            · -- recovery elapsed: fall through the triggers with cleared state
              split
              · rename_i st2 hclear htrig
                obtain ⟨h1, h2, h3, h4, h5⟩ := ih ((st.start_lv_recovery o.config.outlet_id now).clear_lv_shutdown o.config.outlet_id)
                refine ⟨by rw [h1]; simp, by rw [h2]; simp, h3, h4, fun k hk => ?_⟩
                obtain ⟨x, hx, hk, hs, hgx⟩ := h5 k hk
                refine ⟨x, by simp [hx], hk, hs, ?_⟩
                rw [← hgx]
                congr 1
                simp
              · rename_i r n c htrig
                obtain ⟨hn, hc⟩ := startTriggers_spec d p o r n c htrig
                simp only [PassOut.finalState, PassOut.retResult?, PassOut.retCmds]
                refine ⟨by simp, by simp, Or.inr ⟨r, rfl, ?_⟩, ?_, ?_⟩
                · rcases hc with ⟨hr, _⟩ | ⟨hr, _⟩ <;> tauto
                · intro k hk
                  rcases hc with ⟨_, hce⟩ | ⟨_, hce⟩ <;> simp [hce] at hk
                · intro k hk
                  rcases hc with ⟨_, hce⟩ | ⟨_, hce⟩
                  · simp [hce] at hk
                  · simp [hce] at hk
                    refine ⟨o, by simp, by simp [hk], ?_, ?_⟩
                    · simpa using ho
                    · simpa using hg
            · simp only [PassOut.finalState, PassOut.retResult?, PassOut.retCmds]
              exact ⟨by simp, by simp, Or.inr ⟨_, rfl, by tauto⟩,
                by intro k hk; simp at hk, by intro k hk; simp at hk⟩
          · simp only [PassOut.finalState, PassOut.retResult?, PassOut.retCmds]
            exact ⟨by simp, by simp, Or.inr ⟨_, rfl, by tauto⟩,
              by intro k hk; simp at hk, by intro k hk; simp at hk⟩
        · split
          · obtain ⟨h1, h2, h3, h4, h5⟩ := ih st
            refine ⟨h1, h2, h3, h4, fun k hk => ?_⟩
            obtain ⟨x, hx, hk, hs, hgx⟩ := h5 k hk
            exact ⟨x, by simp [hx], hk, hs, hgx⟩
          · rename_i htrig
            rename_i r n c
            obtain ⟨hn, hc⟩ := startTriggers_spec d p o r n c htrig
            simp only [PassOut.finalState, PassOut.retResult?, PassOut.retCmds]
            refine ⟨by simp, by simp, Or.inr ⟨r, rfl, ?_⟩, ?_, ?_⟩
            · rcases hc with ⟨hr, _⟩ | ⟨hr, _⟩ <;> tauto
            · intro k hk
              rcases hc with ⟨_, hce⟩ | ⟨_, hce⟩ <;> simp [hce] at hk
            · intro k hk
              rcases hc with ⟨_, hce⟩ | ⟨_, hce⟩
              · simp [hce] at hk
              · simp [hce] at hk
                refine ⟨o, by simp, by simp [hk], ?_, ?_⟩
                · simpa using ho
                · simpa using hg

/-- A startup pass never switches an outlet's `lv_shutdown` flag on. -/
theorem startupPass_shutdown_mono (d : InverterData) (p : EMSParameters)
    (sa : List OutletDevice) (now : ℚ) (l : List OutletDevice) (st : LogicState)
    (oid : Nat) (h : st.lv_shutdown oid = false) :
    ((startupPass d p sa now l st).finalState).lv_shutdown oid = false := by
  induction l generalizing st with
  | nil => simpa [startupPass, PassOut.finalState]
  | cons o rest ih =>
    simp only [startupPass]
    split
    · exact ih st h
    · split
      · exact ih st h
      · split
        · split
          · split
            · split
              · refine ih _ ?_
                by_cases hcase : oid = o.config.outlet_id
                · subst hcase; simp
                · rw [clear_lv_shutdown_ne _ hcase]
                  simpa using h
              · simp only [PassOut.finalState]
                by_cases hcase : oid = o.config.outlet_id
                · subst hcase; simp
                · rw [clear_lv_shutdown_ne _ hcase]
                  simpa using h
            · simpa [PassOut.finalState] using h
          · simpa [PassOut.finalState] using h
        · split
          · exact ih st h
          · simpa [PassOut.finalState] using h

/-- When no connectivity, safety, manual-mode or validation gate fires,
`process` runs runtime tracking, the shutdown pass and the startup pass in
order. -/
theorem process_auto (d : InverterData) (p : EMSParameters)
    (outlets conn : List OutletDevice) (st : LogicState) (now : ℚ)
    (hconn : outlets.filter (fun o => o.is_connected) = conn)
    (hne : conn ≠ [])
    (hsafe : safetyCheck d p conn = none)
    (hman : p.manual_mode = false)
    (hval : validateConfigs p conn = none) :
    process d p outlets st now =
      (match shutdownPass d now (sortByPriority conn).reverse
          (trackRuntime now (sortByPriority conn) st) with
       | .ret r n c st2 => ⟨r, n, c, st2⟩
       | .cont st2 =>
         match startupPass d p (sortByPriority conn) now (sortByPriority conn) st2 with
         | .ret r n c st3 => ⟨r, n, c, st3⟩
         | .cont st3 =>
           if conn.any (fun o => o.current_state) then ⟨.RUNNING_OK, none, [], st3⟩
           else ⟨.WAIT_CHARGING, none, [], st3⟩) := by
  have houtlets : outlets ≠ [] := by
    intro hh
    rw [hh] at hconn
    exact hne (by simpa using hconn.symm)
  have h1 : outlets.isEmpty = false := by
    cases outlets with
    | nil => exact absurd rfl houtlets
    | cons a as => rfl
  have h2 : conn.isEmpty = false := by
    cases conn with
    | nil => exact absurd rfl hne
    | cons a as => rfl
  simp only [process, hconn, h1, h2, hsafe, hman, hval, Bool.false_eq_true,
    if_false]

/-- Global facts about every `process` call: it never returns
`WAIT_HEADROOM`, and every `turn_on` it issues goes to a connected,
currently-off outlet whose priority-1 gate passed. -/
theorem process_spec (d : InverterData) (p : EMSParameters)
    (outlets : List OutletDevice) (st : LogicState) (now : ℚ) :
    (process d p outlets st now).result ≠ .WAIT_HEADROOM ∧
      ∀ k, Cmd.turnOn k ∈ (process d p outlets st now).cmds →
        ∃ x, x ∈ outlets.filter (fun o => o.is_connected) ∧
          x.config.outlet_id = k ∧ x.current_state = false ∧
          p1Gate (sortByPriority (outlets.filter (fun o => o.is_connected))) x
            (trackRuntime now (sortByPriority (outlets.filter (fun o => o.is_connected))) st).runtime_start
            now = true := by
  suffices h : ∀ po : ProcOut, process d p outlets st now = po →
      po.result ≠ .WAIT_HEADROOM ∧
        ∀ k, Cmd.turnOn k ∈ po.cmds →
          ∃ x, x ∈ outlets.filter (fun o => o.is_connected) ∧
            x.config.outlet_id = k ∧ x.current_state = false ∧
            p1Gate (sortByPriority (outlets.filter (fun o => o.is_connected))) x
              (trackRuntime now (sortByPriority (outlets.filter (fun o => o.is_connected))) st).runtime_start
              now = true by
    exact h _ rfl
  intro po hpo
  simp only [process] at hpo
  split at hpo
  · cases hpo; exact ⟨by simp, fun k hk => by simp at hk⟩
  · split at hpo
    · cases hpo; exact ⟨by simp, fun k hk => by simp at hk⟩
    · split at hpo
      · rename_i r oid hsc
        cases hpo
        refine ⟨?_, fun k hk => by simp at hk⟩
        rcases safetyCheck_spec _ _ _ _ _ hsc with h | h | h <;> simp [h]
      · split at hpo
        · cases hpo; exact ⟨by simp, fun k hk => by simp at hk⟩
        · split at hpo
          · rename_i r oid hvl
            cases hpo
            refine ⟨?_, fun k hk => by simp at hk⟩
            rcases validateConfigs_spec _ _ _ _ hvl with h | h | h <;> simp [h]
          · split at hpo
            · rename_i r n c st2 hsd
              cases hpo
              obtain ⟨hr, hnoOn, _⟩ := shutdownPass_ret_spec _ _ _ _ _ _ _ _ hsd
              refine ⟨?_, fun k hk => absurd hk (hnoOn k)⟩
              rcases hr with h | h <;> simp [h]
            · rename_i st2 hsd
              obtain ⟨hrt, _, _⟩ := shutdownPass_cont_spec _ _ _ _ _ hsd
              obtain ⟨_, _, hkind, _, hprov⟩ :=
                startupPass_spec d p (sortByPriority (outlets.filter (fun o => o.is_connected)))
                  now (sortByPriority (outlets.filter (fun o => o.is_connected))) st2
              split at hpo
              · rename_i r n c st3 hsu
                cases hpo
                rw [hsu] at hkind
                refine ⟨?_, ?_⟩
                · rcases hkind with h | ⟨r', hr', hk'⟩
                  · simp [PassOut.retResult?] at h
                  · simp only [PassOut.retResult?, Option.some.injEq] at hr'
                    subst hr'
                    rcases hk' with h | h | h | h | h <;> simp [h]
                · intro k hk
                  have hk' : Cmd.turnOn k ∈
                      (startupPass d p (sortByPriority (outlets.filter (fun o => o.is_connected)))
                        now (sortByPriority (outlets.filter (fun o => o.is_connected))) st2).retCmds := by
                    rw [hsu]; exact hk
                  obtain ⟨x, hx, hxid, hxs, hgate⟩ := hprov k hk'
                  rw [hrt] at hgate
                  exact ⟨x, mem_sortByPriority.mp hx, hxid, hxs, hgate⟩
              · split at hpo
                · cases hpo; exact ⟨by simp, fun k hk => by simp at hk⟩
                · cases hpo; exact ⟨by simp, fun k hk => by simp at hk⟩

/-! ## Concrete fixtures for witnesses and counterexamples -/

/-- A representative outlet configuration (the defaults of `config.py`). -/
def baseConfig (oid : Nat) (prio : Int) : OutletConfig :=
  { outlet_id := oid, name := "HP", priority := prio, power := 2000,
    start_soc := 70, stop_soc := 32, hv_threshold := 252, lv_threshold := 210,
    lv_delay := 10, lv_recovery_voltage := 220, lv_recovery_delay := 300,
    headroom := 4000, target_phase := "L1", soc_enabled := true,
    voltage_enabled := true, export_enabled := true, export_limit := 5000,
    runtime_delay := 300 }

/-- A fresh engine state (all Python dicts empty). -/
def zeroState : LogicState :=
  ⟨fun _ => none, fun _ => none, fun _ => false, fun _ => none⟩

/-- A benign inverter snapshot. -/
def sampleData : InverterData :=
  { soc := 80, battery_power := 0, pv_power := 0, grid_power := 0,
    voltages := [230, 230, 230], ups_loads := [1000, 1000, 1000],
    grid_loads := [0, 0, 0], total_loads := [0, 0, 0], running_state := 2,
    is_grid_connected := true }

/-- The default global parameters (`EMSDefaults`). -/
def sampleParams : EMSParameters :=
  { phase_max := 7000, safety_lv := 185, manual_mode := false,
    max_ups_total_power := 16000 }

/-- A snapshot whose total UPS output exceeds `max_ups_total_power`. -/
def overloadData : InverterData :=
  { sampleData with ups_loads := [9000, 9000, 0] }

/-- Connected, currently-on outlet with id 1. -/
def onOutlet1 : OutletDevice := ⟨baseConfig 1 1, true, true⟩

/-- Connected, currently-on outlet with id 2. -/
def onOutlet2 : OutletDevice := ⟨baseConfig 2 1, true, true⟩

/-! ## C1 -/

/-- C1, counterexample: with two connected, currently-on outlets and a UPS
total overload, the claim's universally quantified conclusion fails for the
second outlet — the engine turns off only the first on outlet and returns,
issuing no `turn_off` for the second that cycle. -/
theorem c1_counterexample :
    onOutlet2.is_connected = true ∧ onOutlet2.current_state = true ∧
      overloadData.ups_loads.sum > sampleParams.max_ups_total_power ∧
      (process overloadData sampleParams [onOutlet1, onOutlet2] zeroState 1000).result =
        .SAFETY_UPS_OVERLOAD ∧
      Cmd.turnOff onOutlet2.config.outlet_id ∉
        (process overloadData sampleParams [onOutlet1, onOutlet2] zeroState 1000).cmds := by
  refine ⟨rfl, rfl, by decide, rfl, ?_⟩
  decide

/-- C1, amended: for the FIRST connected, currently-on outlet (in registry
order), whichever hard-safety condition holds — total UPS overload, then
per-phase overload, then critical undervoltage, in that precedence — makes
`process` issue a single `turn_off` for that outlet and return the matching
SAFETY result with no other command, leaving the engine state untouched;
`manual_mode` is not consulted, so this holds in manual mode too. -/
theorem c1_safety_first (d : InverterData) (p : EMSParameters)
    (outlets pre suf : List OutletDevice) (o : OutletDevice)
    (st : LogicState) (now : ℚ)
    (hconn : outlets.filter (fun x => x.is_connected) = pre ++ o :: suf)
    (hpre : ∀ x ∈ pre, x.current_state = false)
    (ho : o.current_state = true) :
    (d.ups_loads.sum > p.max_ups_total_power →
      process d p outlets st now =
        ⟨.SAFETY_UPS_OVERLOAD, some o.config.outlet_id,
          [.turnOff o.config.outlet_id], st⟩) ∧
    (¬ d.ups_loads.sum > p.max_ups_total_power →
      d.ups_loads.any (fun w => decide (w > p.phase_max)) = true →
      process d p outlets st now =
        ⟨.SAFETY_OVERLOAD, some o.config.outlet_id,
          [.turnOff o.config.outlet_id], st⟩) ∧
    (¬ d.ups_loads.sum > p.max_ups_total_power →
      d.ups_loads.any (fun w => decide (w > p.phase_max)) = false →
      d.voltages.any (fun v => decide (v < p.safety_lv)) = true →
      process d p outlets st now =
        ⟨.SAFETY_UNDERVOLTAGE, some o.config.outlet_id,
          [.turnOff o.config.outlet_id], st⟩) := by
  have houtlets : outlets ≠ [] := by
    intro hh
    rw [hh] at hconn
    cases pre <;> simp_all
  have h1e : outlets.isEmpty = false := by
    cases outlets with
    | nil => exact absurd rfl houtlets
    | cons a as => rfl
  have h2e : (pre ++ o :: suf).isEmpty = false := by
    cases pre <;> rfl
  have hfo := safetyCheck_first_on d p pre suf o hpre ho
  refine ⟨?_, ?_, ?_⟩
  · intro h1
    simp only [process, hconn, h1e, h2e, Bool.false_eq_true, if_false, hfo,
      if_pos h1]
  · intro h1 h2
    simp only [process, hconn, h1e, h2e, Bool.false_eq_true, if_false, hfo,
      if_neg h1, h2, if_true]
  · intro h1 h2 h3
    simp only [process, hconn, h1e, h2e, Bool.false_eq_true, if_false, hfo,
      if_neg h1, h2, h3, Bool.false_eq_true, if_false, if_true]

/-- C1, witness: the amended theorem applied at a concrete overload
snapshot with one on outlet, in manual mode. -/
theorem c1_safety_first_witness :
    process overloadData { sampleParams with manual_mode := true }
        [onOutlet1] zeroState 1000 =
      ⟨.SAFETY_UPS_OVERLOAD, some 1, [.turnOff 1], zeroState⟩ :=
  (c1_safety_first overloadData { sampleParams with manual_mode := true }
    [onOutlet1] [] [] onOutlet1 zeroState 1000 rfl (by simp) rfl).1 (by decide)

/-! ## C5 -/

/-- Connected, currently-off outlet whose voltage thresholds are invalid
(`hv_threshold ≤ lv_threshold`) but whose SOC config is fine. -/
def offVoltBad : OutletDevice := ⟨{ baseConfig 1 1 with hv_threshold := 200 }, false, true⟩

/-- Connected, currently-off outlet with `start_soc ≤ stop_soc`. -/
def offSocBad : OutletDevice := ⟨{ baseConfig 2 1 with start_soc := 30 }, false, true⟩

/-- C5, counterexample: not in manual mode, no connectivity or hard-safety
gate fires and a connected outlet (`offSocBad`) has `start_soc ≤ stop_soc`,
yet the cycle's result is not `ERROR_SOC_CONFIG`: an earlier connected
outlet's voltage-threshold violation wins, so `process` returns
`ERROR_VOLTAGE_CONFIG` instead. -/
theorem c5_counterexample :
    sampleParams.manual_mode = false ∧
      safetyCheck sampleData sampleParams
        ([offVoltBad, offSocBad].filter (fun x => x.is_connected)) = none ∧
      (∃ x ∈ [offVoltBad, offSocBad], x.is_connected = true ∧
        x.config.start_soc ≤ x.config.stop_soc) ∧
      (process sampleData sampleParams [offVoltBad, offSocBad] zeroState 1000).result ≠
        .ERROR_SOC_CONFIG ∧
      (process sampleData sampleParams [offVoltBad, offSocBad] zeroState 1000).result =
        .ERROR_VOLTAGE_CONFIG := by
  refine ⟨rfl, by decide, ⟨offSocBad, by simp, rfl, by decide⟩, by decide, rfl⟩

/-- C5, amended: when not in manual mode, no hard-safety gate fires and the
FIRST config violation among connected outlets (in registry order) is a SOC
violation (`start_soc ≤ stop_soc`), `process` returns `ERROR_SOC_CONFIG`
naming that outlet, issues no command whatsoever that cycle (in particular
never an `on` for that outlet), and leaves the engine state untouched; this
recurs every cycle while the configuration is unchanged. -/
theorem c5_soc_config_error (d : InverterData) (p : EMSParameters)
    (outlets pre suf : List OutletDevice) (o : OutletDevice)
    (st : LogicState) (now : ℚ)
    (hconn : outlets.filter (fun x => x.is_connected) = pre ++ o :: suf)
    (hman : p.manual_mode = false)
    (hsafe : safetyCheck d p (pre ++ o :: suf) = none)
    (hpre : ∀ x ∈ pre, configValid p x.config = true)
    (ho : o.config.start_soc ≤ o.config.stop_soc) :
    process d p outlets st now =
      ⟨.ERROR_SOC_CONFIG, some o.config.outlet_id, [], st⟩ := by
  have houtlets : outlets ≠ [] := by
    intro hh
    rw [hh] at hconn
    cases pre <;> simp_all
  have h1e : outlets.isEmpty = false := by
    cases outlets with
    | nil => exact absurd rfl houtlets
    | cons a as => rfl
  have h2e : (pre ++ o :: suf).isEmpty = false := by
    cases pre <;> rfl
  have hval := validateConfigs_first_violation p pre suf o hpre ho
  simp only [process, hconn, h1e, h2e, Bool.false_eq_true, if_false, hsafe,
    hman, hval]

/-- C5, witness: the amended theorem at a single connected outlet with
`start_soc = 30 ≤ 32 = stop_soc`. -/
theorem c5_soc_config_error_witness :
    process sampleData sampleParams [offSocBad] zeroState 5 =
      ⟨.ERROR_SOC_CONFIG, some 2, [], zeroState⟩ :=
  c5_soc_config_error sampleData sampleParams [offSocBad] [] [] offSocBad
    zeroState 5 rfl rfl (by decide) (by simp) (by decide)

/-! ## C2 -/

/-- Priority-2 outlet on phase L2, currently on (lower priority, so the
reversed shutdown pass visits it first). -/
def c2OutA : OutletDevice :=
  ⟨{ baseConfig 1 2 with target_phase := "L2" }, true, true⟩

/-- The same outlet after it has been switched off between cycles. -/
def c2OutAoff : OutletDevice :=
  ⟨{ baseConfig 1 2 with target_phase := "L2" }, false, true⟩

/-- Priority-1 outlet on phase L1, currently on. -/
def c2OutB : OutletDevice := ⟨baseConfig 2 1, true, true⟩

/-- Engine state carrying a stale lv timer for outlet 2, started at
`t = 0`. -/
def c2StaleState : LogicState :=
  ⟨fun i => if i == 2 then some 0 else none, fun _ => none, fun _ => false,
   fun _ => none⟩

/-- Snapshot with phase L2 low (200 V) and phase L1 healthy (230 V). -/
def c2Data1 : InverterData := { sampleData with voltages := [230, 200, 230] }

/-- Snapshot with phase L1 low (200 V) and the other phases healthy. -/
def c2Data2 : InverterData := { sampleData with voltages := [200, 230, 230] }

/-- C2, counterexample: the claim's reset clause fails across a consumed
cycle.  At `t = 1000` outlet 2's target-phase voltage (230 V) is above its
`lv_threshold`, but the cycle is consumed by outlet 1's own undervoltage
timer (lower priority, visited first in the reversed pass), so outlet 2's
stale lv timer (started at `t = 0`) is NOT reset to `none` as the claim
demands.  One second later — far less than `lv_delay = 10` continuous
sub-threshold seconds — a dip on outlet 2's phase makes the stale timer
fire: the engine issues `turn_off` for outlet 2 with `OFF_UNDERVOLTAGE`. -/
theorem c2_counterexample :
    c2OutB.is_connected = true ∧ c2OutB.current_state = true ∧
      c2OutB.config.voltage_enabled = true ∧
      c2Data1.voltages.getD (phaseIdx c2OutB.config.target_phase) 0 ≥
        c2OutB.config.lv_threshold ∧
      (process c2Data1 sampleParams [c2OutB, c2OutA] c2StaleState 1000).named =
        some 1 ∧
      (process c2Data1 sampleParams [c2OutB, c2OutA] c2StaleState 1000).state.lv_timers 2 =
        some 0 ∧
      (1001 : ℚ) - 1000 < c2OutB.config.lv_delay ∧
      (process c2Data2 sampleParams [c2OutB, c2OutAoff]
          (process c2Data1 sampleParams [c2OutB, c2OutA] c2StaleState 1000).state
          1001).result = .OFF_UNDERVOLTAGE ∧
      (process c2Data2 sampleParams [c2OutB, c2OutAoff]
          (process c2Data1 sampleParams [c2OutB, c2OutA] c2StaleState 1000).state
          1001).cmds = [.turnOff 2] := by
  refine ⟨rfl, rfl, rfl, by decide, ?_, ?_, by norm_num [c2OutB, baseConfig], ?_, ?_⟩ <;>
    norm_num [process, sampleData, sampleParams, c2Data1, c2Data2, c2OutA, c2OutAoff,
      c2OutB, c2StaleState, baseConfig, safetyCheck, validateConfigs,
      sortByPriority, insertByPriority, trackRuntime, shutdownPass, startupPass,
      p1Gate, startTriggers, maxQ, List.foldl, phaseIdx,
      LogicState.start_runtime, LogicState.reset_runtime,
      LogicState.start_lv_timer, LogicState.reset_lv_timer,
      LogicState.lv_timer_elapsed, LogicState.is_lv_shutdown,
      LogicState.start_lv_recovery, LogicState.reset_lv_recovery,
      LogicState.lv_recovery_elapsed, LogicState.clear_lv_shutdown,
      LogicState.mark_lv_shutdown, updFn,
      show ("L2" : String) ≠ "L1" by decide]

/-- C2, amended: undervoltage shutoff is monotonic for the outlet the
shutdown pass evaluates.  Each cycle the pass visits the currently-on
outlets in reverse priority order and stops at the first event, so the
guarantees hold for the connected, currently-on outlet it reaches (all
outlets before it in the reverse-priority order off; its id not shared by
later outlets; auto logic running, i.e. no safety, manual-mode or
config-validation short-circuit): while the target-phase voltage is below
`lv_threshold` the lv timer starts (if unset) and continues, a `turn_off`
with result `OFF_UNDERVOLTAGE` and `lv_shutdown` marked true is issued
exactly once the timer start is `lv_delay` seconds old, and before that the
cycle reports `OFF_UNDERVOLTAGE` with no command; in any cycle REACHING the
outlet with its voltage at or above `lv_threshold` (or the trigger
disabled) the lv timer is reset to `none` and no undervoltage turn-off is
attributed to it.  Outlets the pass does not reach keep their timers
untouched that cycle (see the counterexample), so the continuity guarantee
is per evaluated cycle, not across consumed ones. -/
theorem c2_undervoltage_monotonic (d : InverterData) (p : EMSParameters)
    (outlets conn pre suf : List OutletDevice) (o : OutletDevice)
    (st : LogicState) (now : ℚ)
    (hconn : outlets.filter (fun x => x.is_connected) = conn)
    (hsafe : safetyCheck d p conn = none)
    (hman : p.manual_mode = false)
    (hval : validateConfigs p conn = none)
    (hrev : (sortByPriority conn).reverse = pre ++ o :: suf)
    (hpre : ∀ x ∈ pre, x.current_state = false)
    (hsuf : ∀ x ∈ suf, x.config.outlet_id ≠ o.config.outlet_id)
    (ho : o.current_state = true) :
    (o.config.voltage_enabled = true →
      d.voltages.getD (phaseIdx o.config.target_phase) 0 < o.config.lv_threshold →
      (now - (st.lv_timers o.config.outlet_id).getD now ≥ o.config.lv_delay →
        (process d p outlets st now).result = .OFF_UNDERVOLTAGE ∧
          (process d p outlets st now).cmds = [.turnOff o.config.outlet_id] ∧
          (process d p outlets st now).state.lv_shutdown o.config.outlet_id = true) ∧
      (¬ now - (st.lv_timers o.config.outlet_id).getD now ≥ o.config.lv_delay →
        (process d p outlets st now).result = .OFF_UNDERVOLTAGE ∧
          (process d p outlets st now).cmds = [] ∧
          (process d p outlets st now).state.lv_timers o.config.outlet_id =
            some ((st.lv_timers o.config.outlet_id).getD now))) ∧
    (¬ (o.config.voltage_enabled = true ∧
        d.voltages.getD (phaseIdx o.config.target_phase) 0 < o.config.lv_threshold) →
      (process d p outlets st now).state.lv_timers o.config.outlet_id = none ∧
        ((process d p outlets st now).result = .OFF_UNDERVOLTAGE →
          (process d p outlets st now).named ≠ some o.config.outlet_id)) := by
  have hne : conn ≠ [] := by
    intro hh
    subst hh
    simp only [sortByPriority, List.reverse_nil] at hrev
    cases pre <;> simp at hrev
  have hproc := process_auto d p outlets conn st now hconn hne hsafe hman hval
  rw [hrev, shutdownPass_off_skip d now pre (o :: suf) _ hpre] at hproc
  generalize hst1 : trackRuntime now (sortByPriority conn) st = st1 at hproc
  have hlv1 : st1.lv_timers = st.lv_timers := by
    rw [← hst1]; exact trackRuntime_lv_timers now _ st
  have hstart : (st1.start_lv_timer o.config.outlet_id now).lv_timers o.config.outlet_id =
      some ((st.lv_timers o.config.outlet_id).getD now) := by
    rw [start_lv_timer_lv_timers_self, hlv1]
  constructor
  · intro hven hvlt
    have hguard : (o.config.voltage_enabled &&
        decide (d.voltages.getD (phaseIdx o.config.target_phase) 0 <
          o.config.lv_threshold)) = true := by
      rw [hven, Bool.true_and, decide_eq_true_eq]
      exact hvlt
    constructor
    · intro helapsed
      have helb : (st1.start_lv_timer o.config.outlet_id now).lv_timer_elapsed
          o.config.outlet_id o.config.lv_delay now = true := by
        simp only [LogicState.lv_timer_elapsed, hstart, decide_eq_true_eq]
        exact helapsed
      have hsd : shutdownPass d now (o :: suf) st1 =
          .ret .OFF_UNDERVOLTAGE (some o.config.outlet_id)
            [.turnOff o.config.outlet_id]
            (((st1.start_lv_timer o.config.outlet_id now).reset_runtime
              o.config.outlet_id).mark_lv_shutdown o.config.outlet_id) := by
        simp only [shutdownPass, ho, hguard, helb, if_true]
      rw [hsd] at hproc
      simp only [] at hproc
      rw [hproc]
      exact ⟨rfl, rfl, by simp⟩
    · intro hnel
      have helb : (st1.start_lv_timer o.config.outlet_id now).lv_timer_elapsed
          o.config.outlet_id o.config.lv_delay now = false := by
        simp only [LogicState.lv_timer_elapsed, hstart, decide_eq_false_iff_not]
        exact hnel
      have hsd : shutdownPass d now (o :: suf) st1 =
          .ret .OFF_UNDERVOLTAGE (some o.config.outlet_id) []
            (st1.start_lv_timer o.config.outlet_id now) := by
        simp only [shutdownPass, ho, hguard, helb, if_true, Bool.false_eq_true,
          if_false]
      rw [hsd] at hproc
      simp only [] at hproc
      rw [hproc]
      exact ⟨rfl, rfl, hstart⟩
  · intro hnot
    have hguard : (o.config.voltage_enabled &&
        decide (d.voltages.getD (phaseIdx o.config.target_phase) 0 <
          o.config.lv_threshold)) = false := by
      rcases Bool.eq_false_or_eq_true o.config.voltage_enabled with hv | hv
      · rw [hv, Bool.true_and, decide_eq_false_iff_not]
        exact fun hc => hnot ⟨hv, hc⟩
      · rw [hv, Bool.false_and]
    by_cases hsoc : (o.config.soc_enabled && decide (d.soc ≤ o.config.stop_soc)) = true
    · have hsd : shutdownPass d now (o :: suf) st1 =
          .ret .OFF_BATTERY_LOW (some o.config.outlet_id)
            [.turnOff o.config.outlet_id]
            ((st1.reset_lv_timer o.config.outlet_id).reset_runtime
              o.config.outlet_id) := by
        simp only [shutdownPass, ho, hguard, hsoc, if_true, Bool.false_eq_true,
          if_false]
      rw [hsd] at hproc
      simp only [] at hproc
      rw [hproc]
      refine ⟨by simp, ?_⟩
      intro hres
      simp at hres
    · have hsoc' : (o.config.soc_enabled &&
          decide (d.soc ≤ o.config.stop_soc)) = false :=
        Bool.eq_false_iff.mpr hsoc
      have hsd : shutdownPass d now (o :: suf) st1 =
          shutdownPass d now suf (st1.reset_lv_timer o.config.outlet_id) := by
        simp only [shutdownPass, ho, hguard, hsoc', if_true, Bool.false_eq_true,
          if_false]
      rw [hsd] at hproc
      have hpres := shutdownPass_preserve d now suf
        (st1.reset_lv_timer o.config.outlet_id) o.config.outlet_id hsuf
      rcases hsd2 : shutdownPass d now suf (st1.reset_lv_timer o.config.outlet_id)
        with ⟨r2, n2, c2, st3⟩ | ⟨st3⟩
      · rw [hsd2] at hproc hpres
        simp only [PassOut.finalState, PassOut.retNamed] at hpres
        simp only [] at hproc
        rw [hproc]
        refine ⟨?_, fun _ => hpres.2.2⟩
        rw [show (ProcOut.mk r2 n2 c2 st3).state = st3 from rfl, hpres.1]
        simp
      · rw [hsd2] at hproc hpres
        simp only [] at hproc
        simp only [PassOut.finalState] at hpres
        have hlt3 : st3.lv_timers o.config.outlet_id = none := by
          rw [hpres.1]; simp
        obtain ⟨hsu1, _, hsukinds, _, _⟩ :=
          startupPass_spec d p (sortByPriority conn) now (sortByPriority conn) st3
        rcases hsu : startupPass d p (sortByPriority conn) now (sortByPriority conn) st3
          with ⟨r3, n3, c3, st4⟩ | ⟨st4⟩
        · rw [hsu] at hproc hsu1 hsukinds
          simp only [PassOut.finalState, PassOut.retResult?] at hsu1 hsukinds
          simp only [] at hproc
          rw [hproc]
          refine ⟨by rw [show (ProcOut.mk r3 n3 c3 st4).state = st4 from rfl, hsu1, hlt3], ?_⟩
          intro hres
          rcases hsukinds with h | ⟨r', hr', hk⟩
          · exact absurd h (by simp)
          · cases hr'
            simp only [show (ProcOut.mk r3 n3 c3 st4).result = r3 from rfl] at hres
            subst hres
            rcases hk with h | h | h | h | h <;> simp at h
        · rw [hsu] at hproc hsu1
          simp only [PassOut.finalState] at hsu1
          simp only [] at hproc
          by_cases hany : (conn.any fun x => x.current_state) = true
          · rw [if_pos hany] at hproc
            rw [hproc]
            exact ⟨by rw [show (ProcOut.mk .RUNNING_OK none [] st4).state = st4 from rfl,
              hsu1, hlt3], fun hres => by simp at hres⟩
          · rw [if_neg hany] at hproc
            rw [hproc]
            exact ⟨by rw [show (ProcOut.mk .WAIT_CHARGING none [] st4).state = st4 from rfl,
              hsu1, hlt3], fun hres => by simp at hres⟩

/-- Connected, currently-on outlet with id 1 (alias used by the C2
witness). -/
def c2Outlet : OutletDevice := ⟨baseConfig 1 1, true, true⟩

/-- Snapshot with phase L1 at 200 V, below the default 210 V
`lv_threshold` but above the 185 V `safety_lv`. -/
def lowVoltData : InverterData := { sampleData with voltages := [200, 230, 230] }

/-- C2, witness: a single on outlet under a fresh timer at 200 V reports
`OFF_UNDERVOLTAGE`, issues no command yet, and starts its lv timer at
`now`. -/
theorem c2_undervoltage_monotonic_witness :
    (process lowVoltData sampleParams [c2Outlet] zeroState 1000).result =
        .OFF_UNDERVOLTAGE ∧
      (process lowVoltData sampleParams [c2Outlet] zeroState 1000).cmds = [] ∧
      (process lowVoltData sampleParams [c2Outlet] zeroState 1000).state.lv_timers 1 =
        some 1000 :=
  ((c2_undervoltage_monotonic lowVoltData sampleParams [c2Outlet] [c2Outlet]
      [] [] c2Outlet zeroState 1000 rfl (by decide) rfl (by decide) rfl
      (by simp) (by simp) rfl).1 rfl (by decide)).2 (by norm_num [zeroState, c2Outlet, baseConfig])

/-! ## C3 -/

/-- Priority-1 outlet 1, off, connected, in lv shutdown (the consumer that
takes the cycle's single result). -/
def c3OutC : OutletDevice := ⟨baseConfig 1 1, false, true⟩

/-- The same outlet once its network connection has dropped. -/
def c3OutCdisc : OutletDevice := ⟨baseConfig 1 1, false, false⟩

/-- Priority-1 outlet 2, off, connected, in lv shutdown. -/
def c3OutB : OutletDevice := ⟨baseConfig 2 1, false, true⟩

/-- Engine state with both outlets in lv shutdown and a stale recovery
timer for outlet 2, started at `t = 0`. -/
def c3StaleState : LogicState :=
  ⟨fun _ => none, fun _ => none, fun i => i == 1 || i == 2,
   fun i => if i == 2 then some 0 else none⟩

/-- Snapshot with phase L1 at 200 V, a dip below the 220 V
`lv_recovery_voltage`. -/
def c3DipData : InverterData := { sampleData with voltages := [200, 230, 230] }

/-- C3, counterexample: the claim's reset clause fails across a consumed
cycle.  At `t = 1000` outlet 2's target-phase voltage (200 V) dips below
its `lv_recovery_voltage` (220 V), but the cycle's single result is
consumed by outlet 1's own `WAIT_LV_RECOVERY` (visited first in the
startup pass), so outlet 2's stale recovery timer (started at `t = 0`) is
NOT reset.  One second later — far less than `lv_recovery_delay = 300`
continuous seconds at or above the recovery voltage — the stale timer
counts as an elapsed dwell: `lv_shutdown` is cleared and `process` issues
`turn_on` for outlet 2. -/
theorem c3_counterexample :
    c3OutB.is_connected = true ∧ c3OutB.current_state = false ∧
      c3StaleState.lv_shutdown 2 = true ∧
      c3DipData.voltages.getD (phaseIdx c3OutB.config.target_phase) 0 <
        c3OutB.config.lv_recovery_voltage ∧
      (process c3DipData sampleParams [c3OutC, c3OutB] c3StaleState 1000).named =
        some 1 ∧
      (process c3DipData sampleParams [c3OutC, c3OutB] c3StaleState 1000).state.lv_recovery_timers 2 =
        some 0 ∧
      (1001 : ℚ) - 1000 < c3OutB.config.lv_recovery_delay ∧
      (process sampleData sampleParams [c3OutCdisc, c3OutB]
          (process c3DipData sampleParams [c3OutC, c3OutB] c3StaleState 1000).state
          1001).result = .ON_AUTO_START ∧
      (process sampleData sampleParams [c3OutCdisc, c3OutB]
          (process c3DipData sampleParams [c3OutC, c3OutB] c3StaleState 1000).state
          1001).cmds = [.turnOn 2] ∧
      (process sampleData sampleParams [c3OutCdisc, c3OutB]
          (process c3DipData sampleParams [c3OutC, c3OutB] c3StaleState 1000).state
          1001).state.lv_shutdown 2 = false := by
  refine ⟨rfl, rfl, rfl, by decide, ?_, ?_,
    by norm_num [c3OutB, baseConfig], ?_, ?_, ?_⟩ <;>
    norm_num [process, sampleData, sampleParams, c3DipData, c3OutC, c3OutCdisc,
      c3OutB, c3StaleState, baseConfig, safetyCheck, validateConfigs,
      sortByPriority, insertByPriority, trackRuntime, shutdownPass, startupPass,
      p1Gate, startTriggers, maxQ, List.foldl, phaseIdx,
      LogicState.start_runtime, LogicState.reset_runtime,
      LogicState.start_lv_timer, LogicState.reset_lv_timer,
      LogicState.lv_timer_elapsed, LogicState.is_lv_shutdown,
      LogicState.start_lv_recovery, LogicState.reset_lv_recovery,
      LogicState.lv_recovery_elapsed, LogicState.clear_lv_shutdown,
      LogicState.mark_lv_shutdown, updFn]

/-- C3, amended: low-voltage recovery is monotonic for the outlet the
startup pass evaluates.  For the first outlet in priority order, connected
and off with `lv_shutdown` set, in a cycle where every connected outlet is
off, auto logic runs (not manual, configs valid) and the outlet has
priority 1 (so the priority gate passes): while the target-phase voltage
is below `lv_recovery_voltage` the cycle returns `WAIT_LV_RECOVERY`,
issues no command and resets the recovery timer to `none`; while the
voltage is at or above the threshold but the dwell has lasted less than
`lv_recovery_delay` seconds, the cycle returns `WAIT_LV_RECOVERY`, issues
no command and keeps (or starts) the recovery timer; only once the dwell
is complete is `lv_shutdown` cleared.  An outlet the pass does not reach
(an earlier outlet consumed the cycle's single result) keeps its recovery
timer untouched even through a voltage dip (see the counterexample), so
the continuity guarantee is per evaluated cycle. -/
theorem c3_lv_recovery_monotonic (d : InverterData) (p : EMSParameters)
    (outlets conn rest : List OutletDevice) (o : OutletDevice)
    (st : LogicState) (now : ℚ)
    (hconn : outlets.filter (fun x => x.is_connected) = conn)
    (hoff : ∀ x ∈ conn, x.current_state = false)
    (hman : p.manual_mode = false)
    (hval : validateConfigs p conn = none)
    (hsorted : sortByPriority conn = o :: rest)
    (hprio : o.config.priority = 1)
    (hsh : st.lv_shutdown o.config.outlet_id = true) :
    (¬ d.voltages.getD (phaseIdx o.config.target_phase) 0 ≥
        o.config.lv_recovery_voltage →
      (process d p outlets st now).result = .WAIT_LV_RECOVERY ∧
        (process d p outlets st now).named = some o.config.outlet_id ∧
        (process d p outlets st now).cmds = [] ∧
        (process d p outlets st now).state.lv_recovery_timers o.config.outlet_id = none ∧
        (process d p outlets st now).state.lv_shutdown o.config.outlet_id = true) ∧
    (d.voltages.getD (phaseIdx o.config.target_phase) 0 ≥
        o.config.lv_recovery_voltage →
      (¬ now - (st.lv_recovery_timers o.config.outlet_id).getD now ≥
          o.config.lv_recovery_delay →
        (process d p outlets st now).result = .WAIT_LV_RECOVERY ∧
          (process d p outlets st now).named = some o.config.outlet_id ∧
          (process d p outlets st now).cmds = [] ∧
          (process d p outlets st now).state.lv_recovery_timers o.config.outlet_id =
            some ((st.lv_recovery_timers o.config.outlet_id).getD now) ∧
          (process d p outlets st now).state.lv_shutdown o.config.outlet_id = true) ∧
      (now - (st.lv_recovery_timers o.config.outlet_id).getD now ≥
          o.config.lv_recovery_delay →
        (process d p outlets st now).state.lv_shutdown o.config.outlet_id = false)) := by
  have hne : conn ≠ [] := by
    intro hh
    subst hh
    simp [sortByPriority] at hsorted
  have hsafe : safetyCheck d p conn = none := safetyCheck_none_of_all_off d p conn hoff
  have hproc := process_auto d p outlets conn st now hconn hne hsafe hman hval
  rw [hsorted] at hproc
  have hoffsorted : ∀ x ∈ (o :: rest).reverse, x.current_state = false := by
    intro x hx
    apply hoff
    apply mem_sortByPriority.mp
    rw [hsorted]
    simpa [or_comm] using hx
  have hsd0 := shutdownPass_off_skip d now ((o :: rest).reverse) []
    (trackRuntime now (o :: rest) st) hoffsorted
  rw [List.append_nil] at hsd0
  rw [hsd0] at hproc
  simp only [shutdownPass] at hproc
  generalize hst1 : trackRuntime now (o :: rest) st = st1 at hproc
  have hsh1 : st1.lv_shutdown = st.lv_shutdown := by
    rw [← hst1]; exact trackRuntime_lv_shutdown now _ st
  have hrt1 : st1.lv_recovery_timers = st.lv_recovery_timers := by
    rw [← hst1]; exact trackRuntime_lv_recovery_timers now _ st
  have hmem : o ∈ conn := by
    rw [← mem_sortByPriority (l := conn), hsorted]
    simp
  have hO : o.current_state = false := hoff o hmem
  have hgate : p1Gate (o :: rest) o st1.runtime_start now = true := by
    unfold p1Gate
    rw [hprio]
    norm_num
  have hshb : st1.is_lv_shutdown o.config.outlet_id = true := by
    simp only [LogicState.is_lv_shutdown]
    rw [hsh1]
    exact hsh
  constructor
  · intro hlow
    have hlowb : decide (d.voltages.getD (phaseIdx o.config.target_phase) 0 ≥
        o.config.lv_recovery_voltage) = false := by
      rw [decide_eq_false_iff_not]; exact hlow
    have hstep : startupPass d p (o :: rest) now (o :: rest) st1 =
        .ret .WAIT_LV_RECOVERY (some o.config.outlet_id) []
          (st1.reset_lv_recovery o.config.outlet_id) := by
      simp only [startupPass, hO, hgate, hshb, hlowb, Bool.not_true,
        Bool.false_eq_true, if_false, if_true]
    rw [hstep] at hproc
    simp only [] at hproc
    rw [hproc]
    refine ⟨rfl, rfl, rfl, by simp, ?_⟩
    show (st1.reset_lv_recovery o.config.outlet_id).lv_shutdown o.config.outlet_id = true
    rw [reset_lv_recovery_lv_shutdown, hsh1]
    exact hsh
  · intro hhigh
    have hhighb : decide (d.voltages.getD (phaseIdx o.config.target_phase) 0 ≥
        o.config.lv_recovery_voltage) = true := decide_eq_true hhigh
    have hst2 : (st1.start_lv_recovery o.config.outlet_id now).lv_recovery_timers
        o.config.outlet_id =
        some ((st.lv_recovery_timers o.config.outlet_id).getD now) := by
      rw [start_lv_recovery_self, hrt1]
    constructor
    · intro hnel
      have helb : (st1.start_lv_recovery o.config.outlet_id now).lv_recovery_elapsed
          o.config.outlet_id o.config.lv_recovery_delay now = false := by
        simp only [LogicState.lv_recovery_elapsed, hst2, decide_eq_false_iff_not]
        exact hnel
      have hstep : startupPass d p (o :: rest) now (o :: rest) st1 =
          .ret .WAIT_LV_RECOVERY (some o.config.outlet_id) []
            (st1.start_lv_recovery o.config.outlet_id now) := by
        simp only [startupPass, hO, hgate, hshb, hhighb, helb, Bool.not_true,
          Bool.false_eq_true, if_false, if_true]
      rw [hstep] at hproc
      simp only [] at hproc
      rw [hproc]
      refine ⟨rfl, rfl, rfl, hst2, ?_⟩
      show (st1.start_lv_recovery o.config.outlet_id now).lv_shutdown
        o.config.outlet_id = true
      rw [start_lv_recovery_lv_shutdown, hsh1]
      exact hsh
    · intro hel
      have helb : (st1.start_lv_recovery o.config.outlet_id now).lv_recovery_elapsed
          o.config.outlet_id o.config.lv_recovery_delay now = true := by
        simp only [LogicState.lv_recovery_elapsed, hst2, decide_eq_true_eq]
        exact hel
      have hclear : ((st1.start_lv_recovery o.config.outlet_id now).clear_lv_shutdown
          o.config.outlet_id).lv_shutdown o.config.outlet_id = false := by simp
      rcases htr : startTriggers d p o with _ | ⟨r, n, c⟩
      · have hstep : startupPass d p (o :: rest) now (o :: rest) st1 =
            startupPass d p (o :: rest) now rest
              ((st1.start_lv_recovery o.config.outlet_id now).clear_lv_shutdown
                o.config.outlet_id) := by
          simp only [startupPass, hO, hgate, hshb, hhighb, helb, htr, Bool.not_true,
            Bool.false_eq_true, if_false, if_true]
        rw [hstep] at hproc
        have hmono := startupPass_shutdown_mono d p (o :: rest) now rest
          ((st1.start_lv_recovery o.config.outlet_id now).clear_lv_shutdown
            o.config.outlet_id) o.config.outlet_id hclear
        rcases hsu : startupPass d p (o :: rest) now rest
            ((st1.start_lv_recovery o.config.outlet_id now).clear_lv_shutdown
              o.config.outlet_id) with ⟨r4, n4, c4, st4⟩ | ⟨st4⟩
        · rw [hsu] at hproc hmono
          simp only [] at hproc
          simp only [PassOut.finalState] at hmono
          rw [hproc]
          exact hmono
        · rw [hsu] at hproc hmono
          simp only [] at hproc
          simp only [PassOut.finalState] at hmono
          by_cases hany : (conn.any fun x => x.current_state) = true
          · rw [if_pos hany] at hproc
            rw [hproc]
            exact hmono
          · rw [if_neg hany] at hproc
            rw [hproc]
            exact hmono
      · have hstep : startupPass d p (o :: rest) now (o :: rest) st1 =
            .ret r (some n) c
              ((st1.start_lv_recovery o.config.outlet_id now).clear_lv_shutdown
                o.config.outlet_id) := by
          simp only [startupPass, hO, hgate, hshb, hhighb, helb, htr, Bool.not_true,
            Bool.false_eq_true, if_false, if_true]
        rw [hstep] at hproc
        simp only [] at hproc
        rw [hproc]
        exact hclear

/-- Connected, currently-off outlet with id 1 (alias used by the C3
witness). -/
def c3Outlet : OutletDevice := ⟨baseConfig 1 1, false, true⟩

/-- Engine state with `lv_shutdown` armed for outlet 1. -/
def c3State : LogicState :=
  ⟨fun _ => none, fun _ => none, fun i => i == 1, fun _ => none⟩

/-- C3, witness: outlet 1 is off after an lv shutdown; at 230 V (above the
220 V recovery threshold) with a fresh dwell timer the cycle reports
`WAIT_LV_RECOVERY`, issues no command, starts the recovery timer at `now`,
and keeps `lv_shutdown` set. -/
theorem c3_lv_recovery_monotonic_witness :
    (process sampleData sampleParams [c3Outlet] c3State 1000).result =
        .WAIT_LV_RECOVERY ∧
      (process sampleData sampleParams [c3Outlet] c3State 1000).named = some 1 ∧
      (process sampleData sampleParams [c3Outlet] c3State 1000).cmds = [] ∧
      (process sampleData sampleParams [c3Outlet] c3State 1000).state.lv_recovery_timers 1 =
        some 1000 ∧
      (process sampleData sampleParams [c3Outlet] c3State 1000).state.lv_shutdown 1 = true :=
  ((c3_lv_recovery_monotonic sampleData sampleParams [c3Outlet] [c3Outlet] []
      c3Outlet c3State 1000 rfl (by decide) rfl (by decide) rfl rfl rfl).2
    (by decide)).1 (by norm_num [c3State, c3Outlet, baseConfig])

/-! ## C4 -/

/-- The condition under which the startup pass's priority-1 gate lets an
outlet proceed, spelled out: priority ≤ 1, or no connected priority-1
outlet exists, or some priority-1 outlet is running and the maximum
continuous runtime among the running ones is at least the outlet's
`runtime_delay`. -/
def p1GateSpec (sa : List OutletDevice) (o : OutletDevice)
    (rs : Nat → Option ℚ) (now : ℚ) : Prop :=
  ¬ o.config.priority > 1 ∨
  sa.filter (fun x => decide (x.config.priority = 1)) = [] ∨
  ((sa.filter (fun x => decide (x.config.priority = 1))).filter
      (fun x => x.current_state) ≠ [] ∧
    maxQ (((sa.filter (fun x => decide (x.config.priority = 1))).filter
        (fun x => x.current_state)).map
      (fun x => match rs x.config.outlet_id with
        | none => 0
        | some t => now - t)) ≥ o.config.runtime_delay)

theorem p1Gate_eq_true_iff (sa : List OutletDevice) (o : OutletDevice)
    (rs : Nat → Option ℚ) (now : ℚ) :
    p1Gate sa o rs now = true ↔ p1GateSpec sa o rs now := by
  by_cases hp : o.config.priority > 1
  · by_cases he : sa.filter (fun x => decide (x.config.priority = 1)) = []
    · simp [p1Gate, p1GateSpec, hp, he]
    · by_cases hr : (sa.filter (fun x => decide (x.config.priority = 1))).filter
          (fun x => x.current_state) = []
      · simp [p1Gate, p1GateSpec, hp, he, hr, List.isEmpty_iff]
      · simp [p1Gate, p1GateSpec, hp, he, hr, List.isEmpty_iff]
  · simp [p1Gate, p1GateSpec, hp]

/-- C4, amended: whatever input `process` is given, every `turn_on` it
issues goes to a connected, currently-off outlet for which the implemented
priority gate passes: the outlet has priority ≤ 1, or no connected
priority-1 outlet exists, or at least one priority-1 outlet is running and
the maximum continuous runtime among the RUNNING priority-1 outlets is at
least the outlet's `runtime_delay`.  (A priority-1 outlet that is off does
not block lower-priority outlets as long as another priority-1 outlet has
run long enough.) -/
theorem c4_priority_gate (d : InverterData) (p : EMSParameters)
    (outlets : List OutletDevice) (st : LogicState) (now : ℚ) (k : Nat)
    (hk : Cmd.turnOn k ∈ (process d p outlets st now).cmds) :
    ∃ x, x ∈ outlets.filter (fun o => o.is_connected) ∧
      x.config.outlet_id = k ∧ x.current_state = false ∧
      p1GateSpec (sortByPriority (outlets.filter (fun o => o.is_connected))) x
        (trackRuntime now (sortByPriority (outlets.filter (fun o => o.is_connected))) st).runtime_start
        now := by
  obtain ⟨x, hx, hid, hs, hg⟩ := (process_spec d p outlets st now).2 k hk
  exact ⟨x, hx, hid, hs, (p1Gate_eq_true_iff _ _ _ _).mp hg⟩

/-- Connected priority-1 outlet that is off and (by a huge headroom
requirement) never starts. -/
def p1OutletB : OutletDevice := ⟨{ baseConfig 2 1 with headroom := 999999 }, false, true⟩

/-- Connected priority-2 outlet that is off and ready to start on SOC. -/
def p2Outlet : OutletDevice := ⟨baseConfig 3 2, false, true⟩

/-- Engine state in which outlet 1 has been running since `t = 0`. -/
def c4State : LogicState :=
  ⟨fun _ => none, fun i => if i == 1 then some 0 else none, fun _ => false,
   fun _ => none⟩

/-- C4, counterexample: a priority-2 outlet DOES transition to on while a
priority-1 outlet (`p1OutletB`) exists that is off — the gate only asks
that some priority-1 outlet has been running for `runtime_delay`, which
`onOutlet1` (running for 1000 s ≥ 300 s) satisfies. -/
theorem c4_counterexample :
    p1OutletB.config.priority = 1 ∧ p1OutletB.current_state = false ∧
      p1OutletB.is_connected = true ∧ p2Outlet.config.priority = 2 ∧
      (process sampleData sampleParams [onOutlet1, p1OutletB, p2Outlet]
          c4State 1000).cmds = [Cmd.turnOn p2Outlet.config.outlet_id] ∧
      (process sampleData sampleParams [onOutlet1, p1OutletB, p2Outlet]
          c4State 1000).result = .ON_AUTO_START := by
  refine ⟨rfl, rfl, rfl, rfl, ?_, ?_⟩ <;>
    norm_num [process, sampleData, sampleParams, onOutlet1, p1OutletB, p2Outlet,
      c4State, baseConfig, safetyCheck, validateConfigs, sortByPriority,
      insertByPriority, trackRuntime, shutdownPass, startupPass, p1Gate,
      startTriggers, maxQ, phaseIdx, LogicState.start_runtime,
      LogicState.reset_runtime, LogicState.start_lv_timer,
      LogicState.reset_lv_timer, LogicState.lv_timer_elapsed,
      LogicState.is_lv_shutdown, LogicState.start_lv_recovery,
      LogicState.reset_lv_recovery, LogicState.lv_recovery_elapsed,
      LogicState.clear_lv_shutdown, LogicState.mark_lv_shutdown, updFn]

/-- C4, witness: the amended theorem applied to the cycle of the
counterexample scenario, showing the startup that did occur went to an
outlet passing the implemented gate. -/
theorem c4_priority_gate_witness :
    ∃ x, x ∈ [onOutlet1, p1OutletB, p2Outlet].filter (fun o => o.is_connected) ∧
      x.config.outlet_id = 3 ∧ x.current_state = false ∧
      p1GateSpec
        (sortByPriority ([onOutlet1, p1OutletB, p2Outlet].filter (fun o => o.is_connected)))
        x
        (trackRuntime 1000
          (sortByPriority ([onOutlet1, p1OutletB, p2Outlet].filter (fun o => o.is_connected)))
          c4State).runtime_start
        1000 :=
  c4_priority_gate sampleData sampleParams [onOutlet1, p1OutletB, p2Outlet]
    c4State 1000 3 (by
      norm_num [process, sampleData, sampleParams, onOutlet1, p1OutletB, p2Outlet,
        c4State, baseConfig, safetyCheck, validateConfigs, sortByPriority,
        insertByPriority, trackRuntime, shutdownPass, startupPass, p1Gate,
        startTriggers, maxQ, phaseIdx, LogicState.start_runtime,
        LogicState.reset_runtime, LogicState.start_lv_timer,
        LogicState.reset_lv_timer, LogicState.lv_timer_elapsed,
        LogicState.is_lv_shutdown, LogicState.start_lv_recovery,
        LogicState.reset_lv_recovery, LogicState.lv_recovery_elapsed,
        LogicState.clear_lv_shutdown, LogicState.mark_lv_shutdown, updFn])

/-! ## C10 -/

/-- C10: `process` never returns `WAIT_HEADROOM` on any input, and an off
outlet that fails a headroom gate (phase headroom below the outlet's
configured `headroom`, or total UPS power plus `headroom` above
`max_ups_total_power`) is silently skipped by the startup pass — the pass
continues with the remaining outlets unchanged, surfacing nothing. -/
theorem c10_no_wait_headroom :
    (∀ (d : InverterData) (p : EMSParameters) (outlets : List OutletDevice)
        (st : LogicState) (now : ℚ),
      (process d p outlets st now).result ≠ .WAIT_HEADROOM) ∧
    (∀ (d : InverterData) (p : EMSParameters) (sa : List OutletDevice)
        (now : ℚ) (o : OutletDevice) (rest : List OutletDevice) (st : LogicState),
      o.current_state = false →
      p1Gate sa o st.runtime_start now = true →
      st.lv_shutdown o.config.outlet_id = false →
      (p.phase_max - d.ups_loads.getD (phaseIdx o.config.target_phase) 0 <
          o.config.headroom ∨
        d.ups_loads.sum + o.config.headroom > p.max_ups_total_power) →
      startupPass d p sa now (o :: rest) st = startupPass d p sa now rest st) := by
  constructor
  · intro d p outlets st now
    exact (process_spec d p outlets st now).1
  · intro d p sa now o rest st ho hg hsh hcond
    have hskip : startTriggers d p o = .skip := by
      simp only [startTriggers]
      rcases hcond with h | h
      · rw [if_pos h]
      · by_cases h1 : p.phase_max -
            d.ups_loads.getD (phaseIdx o.config.target_phase) 0 < o.config.headroom
        · rw [if_pos h1]
        · rw [if_neg h1, if_pos h]
    simp only [startupPass, ho, hg, LogicState.is_lv_shutdown, hsh, hskip,
      Bool.not_true, Bool.false_eq_true, if_false, if_true]

/-- Global parameters with a small `phase_max`, so that every outlet fails
the headroom gate. -/
def tightParams : EMSParameters :=
  { sampleParams with phase_max := 1000 }

/-- Connected, currently-off outlet with id 1 (alias used by the C10
witness). -/
def c10Outlet : OutletDevice := ⟨baseConfig 1 1, false, true⟩

/-- C10, witness: both parts of the theorem at concrete inputs — a cycle
that cannot return `WAIT_HEADROOM`, and a startup pass that silently skips
an outlet whose headroom gate fails (available headroom 0 < 4000). -/
theorem c10_no_wait_headroom_witness :
    (process sampleData sampleParams [onOutlet1] zeroState 5).result ≠
        .WAIT_HEADROOM ∧
      startupPass sampleData tightParams [c10Outlet] 5 [c10Outlet] zeroState =
        startupPass sampleData tightParams [c10Outlet] 5 [] zeroState :=
  ⟨c10_no_wait_headroom.1 sampleData sampleParams [onOutlet1] zeroState 5,
   c10_no_wait_headroom.2 sampleData tightParams [c10Outlet] 5 c10Outlet []
     zeroState rfl (by decide) rfl (Or.inl (by decide))⟩

/-! ## C6 -/

/-- Same-day slot 08:00–10:00 with max 50 A / grid 30 A. -/
def slotDay : ScheduleSlot := ⟨true, 8, 0, 10, 0, 50, 30⟩

/-- Overnight slot 22:00–06:00. -/
def slotNight : ScheduleSlot := ⟨true, 22, 0, 6, 0, 50, 30⟩

/-- C6: the resolver part of the claim holds — with scheduling disabled the
resolver returns no slot; enabled, it returns the first enabled slot in
list order whose window matches; a slot with `start ≤ end` is active iff
`start ≤ now < end` and an overnight slot iff `now ≥ start ∨ now < end`;
the concrete examples of the claim check out.  The final clause of the
claim fails in the code: `App._process_schedule` reads the key
`max_discharge_amps` from the slot/defaults dicts, but neither
`TimeScheduleRow.get_schedule` nor `get_default_values` produces that key,
so applying the settings raises a `KeyError` instead of applying the
default amps (the last conjunct exhibits the key mismatch). -/
theorem c6_schedule_resolver :
    (∀ (rows : List ScheduleSlot) (nowMin : Nat),
      get_active_schedule false rows nowMin = none) ∧
    (∀ (rows : List ScheduleSlot) (nowMin : Nat),
      get_active_schedule true rows nowMin =
        rows.find? (fun s => s.enabled && slotMatches nowMin s)) ∧
    (∀ (nowMin : Nat) (s : ScheduleSlot),
      s.start_hour * 60 + s.start_min ≤ s.end_hour * 60 + s.end_min →
      (slotMatches nowMin s = true ↔
        (s.start_hour * 60 + s.start_min ≤ nowMin ∧
          nowMin < s.end_hour * 60 + s.end_min))) ∧
    (∀ (nowMin : Nat) (s : ScheduleSlot),
      s.end_hour * 60 + s.end_min < s.start_hour * 60 + s.start_min →
      (slotMatches nowMin s = true ↔
        (nowMin ≥ s.start_hour * 60 + s.start_min ∨
          nowMin < s.end_hour * 60 + s.end_min))) ∧
    (get_active_schedule true [slotDay] (9 * 60) = some slotDay ∧
      get_active_schedule true [slotDay] (11 * 60) = none ∧
      get_active_schedule true [slotNight] (23 * 60 + 30) = some slotNight ∧
      get_active_schedule true [slotNight] (5 * 60 + 30) = some slotNight ∧
      get_active_schedule true [slotNight] (12 * 60) = none) ∧
    ("max_discharge_amps" ∈ processScheduleReadKeys ∧
      "max_discharge_amps" ∉ scheduleRowKeys ∧
      "max_discharge_amps" ∉ defaultValuesKeys) := by
  refine ⟨?_, ?_, ?_, ?_, ?_, ?_⟩
  · intro rows nowMin
    simp [get_active_schedule]
  · intro rows nowMin
    simp [get_active_schedule]
  · intro nowMin s h
    simp only [slotMatches, if_pos h, Bool.and_eq_true, decide_eq_true_eq]
  · intro nowMin s h
    simp only [slotMatches, if_neg (not_le.mpr h), Bool.or_eq_true,
      decide_eq_true_eq]
  · exact ⟨by decide, by decide, by decide, by decide, by decide⟩
  · exact ⟨by decide, by decide, by decide⟩

/-- C6, witness: the characterisations applied at the claim's own example
inputs. -/
theorem c6_schedule_resolver_witness :
    (slotMatches (9 * 60) slotDay = true ↔
      (slotDay.start_hour * 60 + slotDay.start_min ≤ 9 * 60 ∧
        9 * 60 < slotDay.end_hour * 60 + slotDay.end_min)) ∧
    (slotMatches (23 * 60 + 30) slotNight = true ↔
      (23 * 60 + 30 ≥ slotNight.start_hour * 60 + slotNight.start_min ∨
        23 * 60 + 30 < slotNight.end_hour * 60 + slotNight.end_min)) ∧
    get_active_schedule false [slotDay] (9 * 60) = none :=
  ⟨c6_schedule_resolver.2.2.1 (9 * 60) slotDay (by decide),
   c6_schedule_resolver.2.2.2.1 (23 * 60 + 30) slotNight (by decide),
   c6_schedule_resolver.1 [slotDay] (9 * 60)⟩

/-! ## C7 -/

/-- Protection settings with `recovery_threshold_pct` (95) above
`power_threshold_pct` (90), making the boost and recovery conditions
overlap. -/
def c7settings : ProtectionSettings := ⟨10000, 90, 95, 250, 245, 5, 10⟩

/-- Protection state with an active 5 A boost and a stale last
adjustment. -/
def c7state : ProtectionState := ⟨5, true, 0⟩

/-- C7, counterexample: the claim's recovery clause fails as stated — with
export below `max_sell_power * recovery_threshold_pct / 100`, max voltage
below `voltage_recovery` and `boost_amps > 0`, the step INcreases the boost
by `charge_step` (the boost condition holds simultaneously and takes
precedence), instead of decreasing it. -/
theorem c7_counterexample :
    ((protExport (-9200) : ℚ) <
        c7settings.max_sell_power * c7settings.recovery_threshold_pct / 100) ∧
      maxQ [(230 : ℚ), 230, 230] < c7settings.voltage_recovery ∧
      c7state.boost_amps > 0 ∧
      (protectionStep true c7settings 40 185 (-9200) [230, 230, 230] 10
          c7state).state.boost_amps =
        c7state.boost_amps + c7settings.charge_step := by
  refine ⟨?_, ?_, ?_, ?_⟩
  · rw [show protExport (-9200) = 9200 from rfl]
    norm_num [c7settings]
  · norm_num [maxQ, List.foldl, c7settings]
  · norm_num [c7state]
  · norm_num [protectionStep, protExport, maxQ, List.foldl, c7settings, c7state]

/-- C7, amended: the stepping controller behaves as the claim says, with
the boost branch taking precedence over the recovery branch when both
conditions hold: export is `max(0, -grid_power)`; within the adjustment
interval nothing changes and nothing is written; on needs-boost the boost
becomes `min(boost + charge_step, max_charge_limit - base)` (so `base +
boost` never exceeds the limit) and `base + boost` is written exactly when
the effective boost changed; when additionally NOT in the needs-boost
condition, on can-recover with positive boost the boost drops by
`charge_step` floored at 0, the reduced value is written, and reaching 0
clears the active flag; otherwise nothing changes. -/
theorem c7_protection_stepping (s : ProtectionSettings) (base maxlimit gp : Int)
    (voltages : List ℚ) (now : ℚ) (st : ProtectionState) :
    protExport gp = max 0 (-gp) ∧
    (now - st.last_adjustment < s.adjustment_interval →
      protectionStep true s base maxlimit gp voltages now st = ⟨st, []⟩) ∧
    (¬ now - st.last_adjustment < s.adjustment_interval →
      ((protExport gp : ℚ) ≥ s.max_sell_power * s.power_threshold_pct / 100 ∨
        maxQ voltages ≥ s.voltage_warning) →
      (protectionStep true s base maxlimit gp voltages now st).state.boost_amps =
          min (st.boost_amps + s.charge_step) (maxlimit - base) ∧
        base + (protectionStep true s base maxlimit gp voltages now st).state.boost_amps ≤
          maxlimit ∧
        (min (st.boost_amps + s.charge_step) (maxlimit - base) ≠ st.boost_amps →
          (protectionStep true s base maxlimit gp voltages now st).writes =
              [base + min (st.boost_amps + s.charge_step) (maxlimit - base)] ∧
            (protectionStep true s base maxlimit gp voltages now st).state.active = true ∧
            (protectionStep true s base maxlimit gp voltages now st).state.last_adjustment =
              now) ∧
        (min (st.boost_amps + s.charge_step) (maxlimit - base) = st.boost_amps →
          protectionStep true s base maxlimit gp voltages now st = ⟨st, []⟩)) ∧
    (¬ now - st.last_adjustment < s.adjustment_interval →
      ¬ ((protExport gp : ℚ) ≥ s.max_sell_power * s.power_threshold_pct / 100 ∨
        maxQ voltages ≥ s.voltage_warning) →
      ((protExport gp : ℚ) < s.max_sell_power * s.recovery_threshold_pct / 100 ∧
        maxQ voltages < s.voltage_recovery) →
      st.boost_amps > 0 →
      (protectionStep true s base maxlimit gp voltages now st).state.boost_amps =
          max 0 (st.boost_amps - s.charge_step) ∧
        (max 0 (st.boost_amps - s.charge_step) ≠ st.boost_amps →
          (protectionStep true s base maxlimit gp voltages now st).writes =
              [base + max 0 (st.boost_amps - s.charge_step)] ∧
            (protectionStep true s base maxlimit gp voltages now st).state.last_adjustment =
              now ∧
            (max 0 (st.boost_amps - s.charge_step) = 0 →
              (protectionStep true s base maxlimit gp voltages now st).state.active = false) ∧
            (max 0 (st.boost_amps - s.charge_step) ≠ 0 →
              (protectionStep true s base maxlimit gp voltages now st).state.active =
                st.active)) ∧
        (max 0 (st.boost_amps - s.charge_step) = st.boost_amps →
          protectionStep true s base maxlimit gp voltages now st = ⟨st, []⟩)) ∧
    (¬ now - st.last_adjustment < s.adjustment_interval →
      ¬ ((protExport gp : ℚ) ≥ s.max_sell_power * s.power_threshold_pct / 100 ∨
        maxQ voltages ≥ s.voltage_warning) →
      ¬ (((protExport gp : ℚ) < s.max_sell_power * s.recovery_threshold_pct / 100 ∧
          maxQ voltages < s.voltage_recovery) ∧ st.boost_amps > 0) →
      protectionStep true s base maxlimit gp voltages now st = ⟨st, []⟩) := by
  refine ⟨?_, ?_, ?_, ?_, ?_⟩
  · unfold protExport
    rcases le_total gp 0 with h | h
    · rw [min_eq_right h, abs_of_nonpos h, max_eq_right (neg_nonneg.mpr h)]
    · rw [min_eq_left h, abs_zero, max_eq_left (neg_nonpos.mpr h)]
  · intro h
    simp only [protectionStep, Bool.not_true, Bool.false_eq_true, if_false,
      if_pos h]
  · intro h hneeds
    have hnb : (decide ((protExport gp : ℚ) ≥
        s.max_sell_power * s.power_threshold_pct / 100) ||
        decide (maxQ voltages ≥ s.voltage_warning)) = true := by
      rcases hneeds with hh | hh <;> simp [hh]
    simp only [protectionStep, Bool.not_true, Bool.false_eq_true, if_false,
      if_neg h, hnb, if_true]
    by_cases hch : min (st.boost_amps + s.charge_step) (maxlimit - base) ≠
        st.boost_amps
    · rw [if_pos hch]
      refine ⟨rfl, ?_, fun _ => ⟨rfl, rfl, rfl⟩, fun hc => absurd hc hch⟩
      have hmr := min_le_right (st.boost_amps + s.charge_step) (maxlimit - base)
      show base + min (st.boost_amps + s.charge_step) (maxlimit - base) ≤ maxlimit
      omega
    · rw [if_neg hch]
      push_neg at hch
      refine ⟨hch.symm, ?_, fun hcon => absurd hcon (by rw [hch]; simp), fun _ => rfl⟩
      have hmr := min_le_right (st.boost_amps + s.charge_step) (maxlimit - base)
      rw [hch] at hmr
      show base + st.boost_amps ≤ maxlimit
      omega
  · intro h hnn hcr hb
    have hnbf : (decide ((protExport gp : ℚ) ≥
        s.max_sell_power * s.power_threshold_pct / 100) ||
        decide (maxQ voltages ≥ s.voltage_warning)) = false := by
      have h1 : ¬ (protExport gp : ℚ) ≥
          s.max_sell_power * s.power_threshold_pct / 100 :=
        fun hc => hnn (Or.inl hc)
      have h2 : ¬ maxQ voltages ≥ s.voltage_warning := fun hc => hnn (Or.inr hc)
      simp [h1, h2]
    have hcrb : ((decide ((protExport gp : ℚ) <
        s.max_sell_power * s.recovery_threshold_pct / 100) &&
        decide (maxQ voltages < s.voltage_recovery)) &&
        decide (st.boost_amps > 0)) = true := by
      simp [hcr.1, hcr.2, hb]
    simp only [protectionStep, Bool.not_true, Bool.false_eq_true, if_false,
      if_neg h, hnbf, hcrb, if_true]
    by_cases hch : max 0 (st.boost_amps - s.charge_step) ≠ st.boost_amps
    · rw [if_pos hch]
      refine ⟨rfl, fun _ => ⟨rfl, rfl, ?_, ?_⟩, fun hc => absurd hc hch⟩
      · intro h0
        show (if max 0 (st.boost_amps - s.charge_step) = 0 then false
          else st.active) = false
        rw [if_pos h0]
      · intro h0
        show (if max 0 (st.boost_amps - s.charge_step) = 0 then false
          else st.active) = st.active
        rw [if_neg h0]
    · rw [if_neg hch]
      push_neg at hch
      exact ⟨hch.symm, fun hcon => absurd hcon (by rw [hch]; simp), fun _ => rfl⟩
  · intro h hnn hnr
    have hnbf : (decide ((protExport gp : ℚ) ≥
        s.max_sell_power * s.power_threshold_pct / 100) ||
        decide (maxQ voltages ≥ s.voltage_warning)) = false := by
      have h1 : ¬ (protExport gp : ℚ) ≥
          s.max_sell_power * s.power_threshold_pct / 100 :=
        fun hc => hnn (Or.inl hc)
      have h2 : ¬ maxQ voltages ≥ s.voltage_warning := fun hc => hnn (Or.inr hc)
      simp [h1, h2]
    have hcrf : ((decide ((protExport gp : ℚ) <
        s.max_sell_power * s.recovery_threshold_pct / 100) &&
        decide (maxQ voltages < s.voltage_recovery)) &&
        decide (st.boost_amps > 0)) = false := by
      by_contra hc
      rw [Bool.not_eq_false] at hc
      simp only [Bool.and_eq_true, decide_eq_true_eq] at hc
      exact hnr ⟨⟨hc.1.1, hc.1.2⟩, hc.2⟩
    simp only [protectionStep, Bool.not_true, Bool.false_eq_true, if_false,
      if_neg h, hnbf, hcrf]

/-- Protection settings used by the C7 witness (threshold 95 %, recovery
80 %). -/
def c7wSettings : ProtectionSettings := ⟨10000, 95, 80, 250, 245, 5, 10⟩

/-- Idle protection state, no boost. -/
def c7wState : ProtectionState := ⟨0, false, 0⟩

/-- C7, witness: the amended theorem's boost clause at export 9600 W =
96 % of a 10 kW sell limit with threshold 95 %: the boost steps from 0 to
`min(0+5, 185-40)` and `base + boost` stays at or below the limit. -/
theorem c7_protection_stepping_witness :
    (protectionStep true c7wSettings 40 185 (-9600) [230, 230, 230] 100
        c7wState).state.boost_amps =
      min (c7wState.boost_amps + c7wSettings.charge_step) (185 - 40) ∧
    40 + (protectionStep true c7wSettings 40 185 (-9600) [230, 230, 230] 100
        c7wState).state.boost_amps ≤ 185 :=
  have h := (c7_protection_stepping c7wSettings 40 185 (-9600) [230, 230, 230]
    100 c7wState).2.2.1
    (by norm_num [c7wState, c7wSettings])
    (Or.inl (by rw [show protExport (-9600) = 9600 from rfl]; norm_num [c7wSettings]))
  ⟨h.1, h.2.1⟩

/-! ## C8 -/

theorem tapoCycleStep_quarantined (env : CycleEnv) (o : TapoOutletState)
    (h : o.permanent_failure = true) : tapoCycleStep env o = (o, false) := by
  simp [tapoCycleStep, h]

theorem tapoRunCycles_quarantined (o : TapoOutletState)
    (h : o.permanent_failure = true) :
    ∀ envs, tapoRunCycles envs o = (o, false) := by
  intro envs
  induction envs with
  | nil => rfl
  | cons e es ih =>
    simp [tapoRunCycles, tapoCycleStep_quarantined e o h, ih]

/-- C8: the outlet connection retry state machine.  A quarantined outlet
(`permanent_failure`) is never polled again — a single cycle and any
sequence of cycles leave it untouched with no connection attempt — until
`toggle` clears the quarantine and resets the retry counter.  A
disconnected outlet whose retry counter has reached the fixed maximum 10 is
quarantined without an attempt.  Below the maximum, the cycle is skipped
(counter bumped, no attempt) exactly when the backoff check
`retry % (min(2^retry, 60) / 2) ≠ 0` (with `retry > 0`) fires; otherwise a
connection is attempted this cycle, and a fully successful cycle resets the
retry counter to 0, clears the quarantine flag and marks the outlet
connected. -/
theorem c8_connection_fsm (env : CycleEnv) (o : TapoOutletState) :
    (o.permanent_failure = true → tapoCycleStep env o = (o, false)) ∧
    (o.permanent_failure = true → ∀ envs, tapoRunCycles envs o = (o, false)) ∧
    (o.permanent_failure = false → o.has_device = false → o.retry_count ≥ 10 →
      tapoCycleStep env o =
        ({ o with permanent_failure := true, is_connected := false,
                  last_error_logged := true }, false)) ∧
    (o.permanent_failure = false → o.has_device = false → o.retry_count < 10 →
      o.retry_count > 0 →
      o.retry_count % (min (2 ^ o.retry_count) 60 / 2) ≠ 0 →
      tapoCycleStep env o = ({ o with retry_count := o.retry_count + 1 }, false)) ∧
    (o.permanent_failure = false → o.has_device = false → o.retry_count < 10 →
      (o.retry_count = 0 ∨ o.retry_count % (min (2 ^ o.retry_count) 60 / 2) = 0) →
      (tapoCycleStep env o).2 = true) ∧
    (o.permanent_failure = false → o.has_device = false → o.retry_count < 10 →
      (o.retry_count = 0 ∨ o.retry_count % (min (2 ^ o.retry_count) 60 / 2) = 0) →
      env.connect_ok = true → env.update_ok = true →
      (o.target_state = none ∨ o.target_state = some env.device_on ∨
        env.apply_ok = true) →
      (tapoCycleStep env o).1.retry_count = 0 ∧
        (tapoCycleStep env o).1.permanent_failure = false ∧
        (tapoCycleStep env o).1.is_connected = true) ∧
    (o.permanent_failure = true →
      tapoToggle o =
        { o with permanent_failure := false, retry_count := 0,
                 last_error_logged := false,
                 target_state := some (!o.current_state) }) ∧
    (o.permanent_failure = false →
      tapoToggle o = { o with target_state := some (!o.current_state) }) := by
  refine ⟨fun h => tapoCycleStep_quarantined env o h,
    fun h => tapoRunCycles_quarantined o h, ?_, ?_, ?_, ?_, ?_, ?_⟩
  · intro h1 h2 h3
    simp [tapoCycleStep, h1, h2, h3]
  · intro h1 h2 h3 h4 h5
    have hge : ¬ o.retry_count ≥ 10 := by omega
    simp [tapoCycleStep, h1, h2, hge, h4, h5]
  · intro h1 h2 h3 h4
    have hge : ¬ o.retry_count ≥ 10 := by omega
    rcases h4 with h0 | h0 <;>
      by_cases hco : env.connect_ok = true <;>
        simp [tapoCycleStep, h1, h2, hge, h0, hco]
  · intro h1 h2 h3 h4 hco huo htarget
    have hge : ¬ o.retry_count ≥ 10 := by omega
    have hstep : tapoCycleStep env o =
        (tapoAfterConnect env
          { o with has_device := true, retry_count := 0,
                   last_error_logged := false }, true) := by
      rcases h4 with h0 | h0 <;> simp [tapoCycleStep, h1, h2, hge, h0, hco]
    rw [hstep]
    rcases htarget with ht | ht | ht
    · simp [tapoAfterConnect, tapoFullSuccess, huo, ht]
    · simp [tapoAfterConnect, tapoFullSuccess, huo, ht]
    · rcases hts : o.target_state with _ | t
      · simp [tapoAfterConnect, tapoFullSuccess, huo, hts]
      · by_cases htc : (t != env.device_on) = true
        · simp [tapoAfterConnect, tapoFullSuccess, huo, hts, htc, ht]
        · have htf : (t != env.device_on) = false := by
            rwa [Bool.not_eq_true] at htc
          simp [tapoAfterConnect, tapoFullSuccess, huo, hts, htf]
  · intro h
    simp [tapoToggle, h]
  · intro h
    simp [tapoToggle, h]

/-- Disconnected outlet mid-backoff (retry counter 3). -/
def c8SkipState : TapoOutletState := ⟨false, 3, false, false, false, false, none⟩

/-- Disconnected outlet whose retry counter has hit the maximum, now
quarantined. -/
def c8QuarState : TapoOutletState := ⟨false, 10, true, true, false, false, none⟩

/-- A cycle environment in which every device operation succeeds. -/
def c8OkEnv : CycleEnv := ⟨true, false, true, false, true, false, false⟩

/-- C8, witness: at retry counter 3 the backoff check `3 % (8/2) ≠ 0`
skips the cycle; a quarantined outlet is untouched by any cycle sequence;
`toggle` clears the quarantine; and a clean cycle from retry 1 reconnects
with the counter reset. -/
theorem c8_connection_fsm_witness :
    tapoCycleStep c8OkEnv c8SkipState =
        ({ c8SkipState with retry_count := 4 }, false) ∧
      tapoRunCycles [c8OkEnv, c8OkEnv, c8OkEnv] c8QuarState = (c8QuarState, false) ∧
      tapoToggle c8QuarState =
        { c8QuarState with permanent_failure := false, retry_count := 0,
                           last_error_logged := false,
                           target_state := some true } ∧
      (tapoCycleStep c8OkEnv ⟨false, 1, false, true, false, false, none⟩).1.retry_count = 0 ∧
      (tapoCycleStep c8OkEnv ⟨false, 1, false, true, false, false, none⟩).1.is_connected = true :=
  ⟨(c8_connection_fsm c8OkEnv c8SkipState).2.2.2.1 rfl rfl (by decide)
      (by decide) (by decide),
    (c8_connection_fsm c8OkEnv c8QuarState).2.1 rfl [c8OkEnv, c8OkEnv, c8OkEnv],
    (c8_connection_fsm c8OkEnv c8QuarState).2.2.2.2.2.2.1 rfl,
    ((c8_connection_fsm c8OkEnv ⟨false, 1, false, true, false, false, none⟩).2.2.2.2.2.1
      rfl rfl (by decide) (Or.inr (by decide)) rfl rfl (Or.inl rfl)).1,
    ((c8_connection_fsm c8OkEnv ⟨false, 1, false, true, false, false, none⟩).2.2.2.2.2.1
      rfl rfl (by decide) (Or.inr (by decide)) rfl rfl (Or.inl rfl)).2.2⟩

/-! ## C9 -/

/-- C9, counterexample: `read_battery_settings` raising inside its body
returns the `(None, None, None)` triple but does NOT drop the connection
handle — after the failed call the handle is still present, contradicting
the claim that every read drops the handle on exception. -/
theorem c9_counterexample :
    read_battery_settings ⟨false, true⟩ (0, 0, 0) (some ()) =
        ((none, none, none), some ()) ∧
      (some () : Option Unit) ≠ none := by
  exact ⟨rfl, by simp⟩

/-- C9, amended: on an exception, `read_data` returns `None` AND drops the
handle (so the next call reconnects from scratch), but
`read_battery_settings` and `read_max_sell_power` only return their `None`
results, keeping the handle; `_write_register` treats acknowledge errors
as success, drops the handle and retries only on transient communication
errors, and returns `False` with the handle kept on any other exception;
an exhausted retry loop returns `False`.  No call propagates the
exception (all are total functions returning their failure value). -/
theorem c9_exception_handling :
    (∀ (env : InvEnv) (conn : Option Unit), env.op_raises = true →
      read_data env conn = (none, none)) ∧
    (∀ (env : InvEnv) (regs : Int × Int × Int), env.op_raises = true →
      read_battery_settings env regs (some ()) = ((none, none, none), some ())) ∧
    (∀ (env : InvEnv) (reg : Int), env.op_raises = true →
      read_max_sell_power env reg (some ()) = (none, some ())) ∧
    (∀ (conn : Option Unit), write_register conn [] = (false, conn)) ∧
    (∀ (cr : Bool) (rest : List WriteAttemptEnv),
      write_register (some ()) (⟨cr, none⟩ :: rest) = (true, some ())) ∧
    (∀ (cr : Bool) (msg : String) (rest : List WriteAttemptEnv),
      isAckError msg = true →
      write_register (some ()) (⟨cr, some msg⟩ :: rest) = (true, some ())) ∧
    (∀ (cr : Bool) (msg : String) (rest : List WriteAttemptEnv),
      isAckError msg = false → isTransientError msg = true →
      write_register (some ()) (⟨cr, some msg⟩ :: rest) = write_register none rest) ∧
    (∀ (cr : Bool) (msg : String) (rest : List WriteAttemptEnv),
      isAckError msg = false → isTransientError msg = false →
      write_register (some ()) (⟨cr, some msg⟩ :: rest) = (false, some ())) := by
  refine ⟨?_, ?_, ?_, ?_, ?_, ?_, ?_, ?_⟩
  · intro env conn h
    rcases conn with _ | u
    · by_cases hcr : env.connect_raises = true
      · simp [read_data, inv_connect, hcr]
      · rw [Bool.not_eq_true] at hcr
        simp [read_data, inv_connect, hcr, h]
    · simp [read_data, inv_connect, h]
  · intro env regs h
    simp [read_battery_settings, inv_connect, h]
  · intro env reg h
    simp [read_max_sell_power, inv_connect, h]
  · intro conn
    rfl
  · intro cr rest
    simp [write_register, inv_connect]
  · intro cr msg rest hack
    simp [write_register, inv_connect, hack]
  · intro cr msg rest hack htr
    simp [write_register, inv_connect, hack, htr]
  · intro cr msg rest hack htr
    simp [write_register, inv_connect, hack, htr]

/-- C9, witness: the amended theorem at concrete calls — a raising
`read_data` drops the handle, a raising `read_max_sell_power` keeps it, a
non-transient write error returns `False` with the handle kept, and a
transient error retries with the handle dropped. -/
theorem c9_exception_handling_witness :
    read_data ⟨false, true⟩ (some ()) = (none, none) ∧
      read_max_sell_power ⟨false, true⟩ 9000 (some ()) = (none, some ()) ∧
      write_register (some ()) [⟨false, some "SomeOtherError"⟩] = (false, some ()) ∧
      write_register (some ()) [⟨false, some "V5FrameError: checksum"⟩, ⟨false, none⟩] =
        (true, some ()) :=
  ⟨c9_exception_handling.1 ⟨false, true⟩ (some ()) rfl,
   c9_exception_handling.2.2.1 ⟨false, true⟩ 9000 rfl,
   c9_exception_handling.2.2.2.2.2.2.2 false "SomeOtherError" [] (by decide) (by decide),
   by
    rw [c9_exception_handling.2.2.2.2.2.2.1 false "V5FrameError: checksum"
      [⟨false, none⟩] (by decide) (by decide)]
    rfl⟩

end DeyeMonitor
